import Mathlib

/-! OCI plugin tables: container instances and database homes.

A shallow embedding of `oci/table_oci_container_instances_container_instance.go`
and `oci/table_oci_database_db_home.go`.

Conventions of the embedding

* A Go pointer or a nilable value is an `Option`; `none` is `nil`.
* A Go `map[K]V` is `GoMap K V`: `none` is the nil map, `some l` is a map whose
  entries are listed in the order in which one `range` loop enumerates them.
  Go leaves that order unspecified, so a second run over the same map is a
  permutation of `l`.
* The map that a transform builds is a `Tags`, a finite partial function from
  keys to values; `tags[k] = v` is `Tags.set`.
* The cloud SDK and the plugin framework are external: their answers are
  inputs of the embedded functions, and the calls made to them are recorded in
  the value the embedded function returns.
* A run-time panic (nil dereference, failed type assertion) is the outcome
  `Outcome.panic`.
-/

namespace Oci

/-! ## Values and maps -/

/-- The Go type `error`, by its message. -/
abbrev Err := String

/-- A Go value of type `interface{}` as it occurs in a tag map. -/
inductive Value where
  | str (s : String)
  | int (n : Int)
  | bool (b : Bool)
  | null
  deriving DecidableEq, Repr

/-- A Go map: `none` is the nil map, `some l` lists the entries in the order
of enumeration of one `range` loop. -/
abbrev GoMap (K V : Type) := Option (List (K × V))

/-- The entries a `range` loop visits; ranging over a nil map visits nothing. -/
def GoMap.range {K V : Type} (m : GoMap K V) : List (K × V) :=
  match m with
  | none => []
  | some l => l

/-- The contents of a non-nil `map[string]interface{}`. -/
abbrev Tags := String → Option Value

/-- The map literal `map[string]interface{}{}`. -/
def Tags.empty : Tags := fun _ => none

/-- The assignment `tags[k] = v`. -/
def Tags.set (tags : Tags) (k : String) (v : Value) : Tags :=
  fun k' => if k' = k then some v else tags k'

/-- A value of type `map[string]interface{}`; `none` is the nil map. -/
abbrev TagMap := Option Tags

/-- A Go `float32`, by its bit pattern; the zero value is `⟨0⟩`. -/
structure GoFloat32 where
  bits : Nat
  deriving DecidableEq, Repr

/-- The SDK type `common.SDKTime`; the zero value is `⟨0⟩`. -/
structure SDKTime where
  unixNanos : Int
  deriving DecidableEq, Repr

/-- The SDK type `common.RetryPolicy`, by an identifying number. -/
structure RetryPolicy where
  ident : Nat
  deriving DecidableEq, Repr

/-- The SDK type `common.RequestMetadata`. -/
structure RequestMetadata where
  RetryPolicy : Option RetryPolicy
  deriving DecidableEq, Repr

/-! ## Records of the cloud SDK (the fields the tables read) -/

/-- The SDK type `containerinstances.ContainerInstanceSummary`. -/
structure ContainerInstanceSummary where
  Id : Option String
  DisplayName : Option String
  CompartmentId : Option String
  FreeformTags : GoMap String String
  DefinedTags : GoMap String (GoMap String Value)
  deriving DecidableEq, Repr

/-- The SDK type `containerinstances.ContainerInstanceShapeConfig`. -/
structure ContainerInstanceShapeConfig where
  Ocpus : Option GoFloat32
  MemoryInGBs : Option GoFloat32
  ProcessorDescription : Option String
  NetworkingBandwidthInGbps : Option GoFloat32
  deriving DecidableEq, Repr

/-- The SDK type `containerinstances.ContainerInstanceContainer`, a child
reference held by its parent. -/
structure ContainerInstanceContainer where
  ContainerId : Option String
  DisplayName : Option String
  deriving DecidableEq, Repr

/-- The SDK type `containerinstances.ContainerInstance`. -/
structure ContainerInstance where
  Id : Option String
  DisplayName : Option String
  CompartmentId : Option String
  ShapeConfig : Option ContainerInstanceShapeConfig
  Containers : List ContainerInstanceContainer
  FreeformTags : GoMap String String
  DefinedTags : GoMap String (GoMap String Value)
  deriving DecidableEq, Repr

/-- The struct `ContainerInstanceInfo` (lines 268-274): the SDK record, embedded,
with four fields copied out of its shape configuration. -/
structure ContainerInstanceInfo where
  ContainerInstance : ContainerInstance
  NetworkingBandwidthInGbps : GoFloat32
  ProcessorDescription : String
  Ocpus : GoFloat32
  MemoryInGBs : GoFloat32
  deriving DecidableEq, Repr

/-- The struct `ContainerDetails` (lines 276-287). -/
structure ContainerDetails where
  DisplayName : String
  ImageUrl : String
  ExitCode : Int
  WorkingDirectory : String
  ContainerRestartAttemptCount : Int
  VcpusLimit : GoFloat32
  MemoryLimitInGBs : GoFloat32
  TimeTerminated : SDKTime
  TimeCreated : SDKTime
  TimeUpdated : SDKTime
  deriving DecidableEq, Repr

/-- The struct `ContainerInstanceContainers` (lines 289-291). -/
structure ContainerInstanceContainers where
  Containers : List ContainerDetails
  deriving DecidableEq, Repr

/-- The SDK type `database.DbHome`. -/
structure DbHome where
  Id : Option String
  DisplayName : Option String
  CompartmentId : Option String
  FreeformTags : GoMap String String
  DefinedTags : GoMap String (GoMap String Value)
  deriving DecidableEq, Repr

/-- The SDK type `database.DbHomeSummary`. -/
structure DbHomeSummary where
  Id : Option String
  DisplayName : Option String
  CompartmentId : Option String
  FreeformTags : GoMap String String
  DefinedTags : GoMap String (GoMap String Value)
  deriving DecidableEq, Repr

/-- A non-nil Go `interface{}` holding a hydrated item, by its dynamic type.
`other` stands for every dynamic type that no type switch of the two tables
names. -/
inductive HydrateItem where
  | containerInstanceSummary (s : ContainerInstanceSummary)
  | containerInstance (c : ContainerInstance)
  | containerInstanceInfo (i : ContainerInstanceInfo)
  | containerInstanceContainers (cs : ContainerInstanceContainers)
  | dbHome (h : DbHome)
  | dbHomeSummary (s : DbHomeSummary)
  | other
  deriving DecidableEq, Repr

/-! ## Tag merge transforms -/

/-- The transform `containerInstanceTags` (lines 416-451) applied to
`d.HydrateItem`. The first component is the returned `interface{}`: `none` is
the nil interface of the `default` branch, `some tags` is the map `tags`
(itself possibly the nil map); the second component is the returned error. -/
def containerInstanceTags (hydrateItem : HydrateItem) : Option TagMap × Option Err :=
  let shape : Option (GoMap String String × GoMap String (GoMap String Value)) :=
    match hydrateItem with
    | .containerInstanceSummary s => some (s.FreeformTags, s.DefinedTags)
    | .containerInstance c => some (c.FreeformTags, c.DefinedTags)
    | _ => none
  match shape with
  | none => (none, none)
  | some (freeFormTags, definedTags) =>
    let tags : TagMap := none
    let tags : TagMap :=
      match freeFormTags with
      | some entries =>
        some (entries.foldl (fun tags kv => Tags.set tags kv.1 (Value.str kv.2)) Tags.empty)
      | none => tags
    let tags : TagMap :=
      match definedTags with
      | some namespaces =>
        let tags : Tags :=
          match tags with
          | none => Tags.empty
          | some t => t
        some (namespaces.foldl
          (fun tags nsv => nsv.2.range.foldl (fun tags kv => Tags.set tags kv.1 kv.2) tags) tags)
      | none => tags
    (some tags, none)

/-- The helper `dbHomeFreeformTags` (lines 316-324). -/
def dbHomeFreeformTags (item : HydrateItem) : GoMap String String :=
  match item with
  | .dbHome h => h.FreeformTags
  | .dbHomeSummary s => s.FreeformTags
  | _ => none

/-- The helper `dbHomeDefinedTags` (lines 326-334). -/
def dbHomeDefinedTags (item : HydrateItem) : GoMap String (GoMap String Value) :=
  match item with
  | .dbHome h => h.DefinedTags
  | .dbHomeSummary s => s.DefinedTags
  | _ => none

/-- The transform `dbHomeTags` (lines 287-314) applied to `d.HydrateItem`; the
result is read as for `containerInstanceTags`. -/
def dbHomeTags (hydrateItem : HydrateItem) : Option TagMap × Option Err :=
  let freeformTags := dbHomeFreeformTags hydrateItem
  let tags : TagMap := none
  let tags : TagMap :=
    match freeformTags with
    | some entries =>
      some (entries.foldl (fun tags kv => Tags.set tags kv.1 (Value.str kv.2)) Tags.empty)
    | none => tags
  let definedTags := dbHomeDefinedTags hydrateItem
  let tags : TagMap :=
    match definedTags with
    | some namespaces =>
      let tags : Tags :=
        match tags with
        | none => Tags.empty
        | some t => t
      some (namespaces.foldl
        (fun tags nsv => nsv.2.range.foldl (fun tags kv => Tags.set tags kv.1 kv.2) tags) tags)
    | none => tags
  (some tags, none)

/-- The key `k` is held with value `f` by the free-form map `F`. -/
def FreeformHolds (F : GoMap String String) (k : String) (f : String) : Prop :=
  ∃ entries, F = some entries ∧ (k, f) ∈ entries

/-- The key `k` is held with value `v` by some namespace of the defined-tags
map `D`. -/
def DefinedHolds (D : GoMap String (GoMap String Value)) (k : String) (v : Value) : Prop :=
  ∃ namespaces ns m, D = some namespaces ∧ (ns, some m) ∈ namespaces ∧ (k, v) ∈ m

/-- The transform result `r` is a non-nil map, returned without error, that
maps the key `k` to the value `v`. -/
def MapsTo (r : Option TagMap × Option Err) (k : String) (v : Value) : Prop :=
  ∃ tags, r = (some (some tags), none) ∧ tags k = some v

/-- The keys of a map are pairwise distinct, as in every Go map. -/
def GoMap.KeysDistinct {K V : Type} (m : GoMap K V) : Prop :=
  (m.range.map Prod.fst).Nodup

/-- The enumeration `m'` lists the entries of the map `m` in another order (a
nil map has one enumeration only). -/
def GoMap.Reordered {K V : Type} (m m' : GoMap K V) : Prop :=
  match m, m' with
  | none, none => True
  | some l, some l' => l.Perm l'
  | _, _ => False

/-- The enumeration `D'` lists the namespaces of the defined-tags map `D` in
another order, and the keys of each namespace in another order. -/
def DefinedReordered (D D' : GoMap String (GoMap String Value)) : Prop :=
  match D, D' with
  | none, none => True
  | some l, some l' =>
    ∃ mid, l.Perm mid ∧ List.Forall₂ (fun a b => a.1 = b.1 ∧ GoMap.Reordered a.2 b.2) mid l'
  | _, _ => False

/-- No key is held with two different values by the namespaces of `D`. -/
def DefinedAgree (D : GoMap String (GoMap String Value)) : Prop :=
  ∀ k v v', DefinedHolds D k v → DefinedHolds D k v' → v = v'

/-- The read `v, ok := tags[k]` of a `map[string]interface{}`: the nil map is
read like a map without entries. -/
def lookupTag (tags : TagMap) (k : String) : Option Value :=
  match tags with
  | none => none
  | some t => t k

/-! ## Query predicates and string helpers -/

/-- The framework type `proto.QualValue`: the value of one equality predicate. -/
inductive QualValue where
  | StringValue (s : String)
  | Int64Value (n : Int)
  | BoolValue (b : Bool)
  | otherValue
  deriving DecidableEq, Repr

/-- The generated getter `(*QualValue).GetStringValue`: the string held, and
the empty string for a nil receiver or a value of another kind. -/
def GetStringValue (q : Option QualValue) : String :=
  match q with
  | some (QualValue.StringValue s) => s
  | _ => ""

/-- The framework type `plugin.KeyColumnEqualsQualMap`: `equalQuals[k]`, which
is nil for a column without an equality predicate. -/
abbrev KeyColumnEqualsQualMap := String → Option QualValue

/-- The library function `strings.Trim(s, cutset)`. -/
def stringsTrim (s cutset : String) : String :=
  String.mk
    (((s.toList.dropWhile (fun c => decide (c ∈ cutset.toList))).reverse.dropWhile
      (fun c => decide (c ∈ cutset.toList))).reverse)

/-- The library function `strings.HasPrefix(s, p)`. -/
def stringsHasPrefix (s p : String) : Bool :=
  p.toList.isPrefixOf s.toList

/-- The conversions `int(x)` and `int64(x)` on a 64-bit platform: the value
reduced to the signed 64-bit range. -/
def wrapInt64 (x : Int) : Int :=
  (x + 9223372036854775808) % 18446744073709551616 - 9223372036854775808

/-- What the framework hands to a hydrate function through `d`. -/
structure QueryData where
  /-- The field `d.KeyColumnQuals`. -/
  KeyColumnQuals : KeyColumnEqualsQualMap
  /-- The field `d.QueryContext.Limit`, an `*int64`. -/
  Limit : Option Int
  /-- The value of `getDefaultRetryPolicy(d.Connection)`, a helper of the
  plugin that lives outside the two table files. -/
  defaultRetryPolicy : Option RetryPolicy

/-- What a Go function of type `(interface{}, error)` does: it returns a value
and an error, or it panics. -/
inductive Outcome (α : Type) where
  | ret (value : Option α) (err : Option Err)
  | panic
  deriving DecidableEq, Repr

/-! ## Filter builders -/

/-- The SDK type `containerinstances.ListContainerInstancesRequest`. The enum
fields are strings whose zero value is the empty string. -/
structure ListContainerInstancesRequest where
  CompartmentId : Option String
  LifecycleState : String
  DisplayName : Option String
  AvailabilityDomain : Option String
  Limit : Option Int
  Page : Option String
  SortOrder : String
  SortBy : String
  OpcRequestId : Option String
  RequestMetadata : RequestMetadata
  deriving DecidableEq, Repr

/-- The composite literal `containerinstances.ListContainerInstancesRequest{}`. -/
def ListContainerInstancesRequest.zero : ListContainerInstancesRequest :=
  { CompartmentId := none, LifecycleState := "", DisplayName := none,
    AvailabilityDomain := none, Limit := none, Page := none, SortOrder := "",
    SortBy := "", OpcRequestId := none, RequestMetadata := { RetryPolicy := none } }

/-- The function `buildContainerInstanceFilters` (lines 403-411); the logger
argument is not used by the body. -/
def buildContainerInstanceFilters (equalQuals : KeyColumnEqualsQualMap) :
    ListContainerInstancesRequest × Bool :=
  let request := ListContainerInstancesRequest.zero
  let isValid := true
  let request :=
    if (equalQuals "displayName").isSome
        && stringsTrim (GetStringValue (equalQuals "displayName")) " " != "" then
      { request with DisplayName := some (GetStringValue (equalQuals "displayName")) }
    else request
  (request, isValid)

/-- The SDK type `database.ListDbHomesRequest`. The enum fields are strings
whose zero value is the empty string. -/
structure ListDbHomesRequest where
  CompartmentId : Option String
  DbSystemId : Option String
  VmClusterId : Option String
  BackupId : Option String
  DbVersion : Option String
  Limit : Option Int
  Page : Option String
  SortBy : String
  SortOrder : String
  LifecycleState : String
  DisplayName : Option String
  OpcRequestId : Option String
  RequestMetadata : RequestMetadata
  deriving DecidableEq, Repr

/-- The composite literal `database.ListDbHomesRequest{}`. -/
def ListDbHomesRequest.zero : ListDbHomesRequest :=
  { CompartmentId := none, DbSystemId := none, VmClusterId := none, BackupId := none,
    DbVersion := none, Limit := none, Page := none, SortBy := "", SortOrder := "",
    LifecycleState := "", DisplayName := none, OpcRequestId := none,
    RequestMetadata := { RetryPolicy := none } }

/-- The function `buildDatabaseDBHomeFilters` (lines 337-357). -/
def buildDatabaseDBHomeFilters (equalQuals : KeyColumnEqualsQualMap) : ListDbHomesRequest :=
  let request := ListDbHomesRequest.zero
  let request :=
    if (equalQuals "db_system_id").isSome then
      { request with DbSystemId := some (GetStringValue (equalQuals "db_system_id")) }
    else request
  let request :=
    if (equalQuals "db_version").isSome then
      { request with DbVersion := some (GetStringValue (equalQuals "db_version")) }
    else request
  let request :=
    if (equalQuals "display_name").isSome then
      { request with DisplayName := some (GetStringValue (equalQuals "display_name")) }
    else request
  let request :=
    if (equalQuals "lifecycle_state").isSome then
      { request with LifecycleState := GetStringValue (equalQuals "lifecycle_state") }
    else request
  let request :=
    if (equalQuals "vm_cluster_id").isSome then
      { request with VmClusterId := some (GetStringValue (equalQuals "vm_cluster_id")) }
    else request
  request

/-! ## Listers -/

/-- One page of a list call: the SDK types
`containerinstances.ListContainerInstancesResponse` and
`database.ListDbHomesResponse`, by the two fields the listers read. -/
structure ListResponse (Item : Type) where
  Items : List Item
  OpcNextPage : Option String
  deriving DecidableEq, Repr

/-- What one invocation of a lister did. -/
structure ListRun (Req Item : Type) where
  /-- How many times the service helper was asked for a session. -/
  sessions : Nat
  /-- The list requests issued, in order. -/
  requests : List Req
  /-- The rows handed to `d.StreamListItem`, in order. -/
  streamed : List Item
  /-- What the function returned; `none` when the last request issued is
  still waiting for its answer, the given sequence of answers being used up. -/
  result : Option (Outcome HydrateItem)
  deriving DecidableEq, Repr

/-- The loop `for _, item := range response.Items` of both listers (lines
248-255 and 226-233): stream the item, then ask the framework how many rows
remain. `rowsRemaining n` is the answer of `d.QueryStatus.RowsRemaining(ctx)`
once `n` rows have been streamed by this invocation. The result is the rows
streamed so far and whether the function returned from inside the loop. -/
def streamItems {Item : Type} (rowsRemaining : Nat → Int) :
    List Item → List Item → List Item × Bool
  | [], streamed => (streamed, false)
  | item :: rest, streamed =>
    let streamed := streamed ++ [item]
    if rowsRemaining streamed.length = 0 then (streamed, true)
    else streamItems rowsRemaining rest streamed

/-- The loop `for pagesLeft` of both listers (lines 240-263 and 219-241), which
differ only in the types of request and item. `setPage` is the assignment
`request.Page = response.OpcNextPage`; the first argument holds the answers of
the list API to the successive requests. -/
def pageLoop {Req Item : Type} (setPage : Req → Option String → Req)
    (rowsRemaining : Nat → Int) :
    List (Except Err (ListResponse Item)) → Req → ListRun Req Item → ListRun Req Item
  | [], request, run => { run with requests := run.requests ++ [request] }
  | answer :: answers, request, run =>
    let run := { run with requests := run.requests ++ [request] }
    match answer with
    | Except.error err => { run with result := some (Outcome.ret none (some err)) }
    | Except.ok response =>
      let (streamed, returned) := streamItems rowsRemaining response.Items run.streamed
      let run := { run with streamed := streamed }
      if returned then { run with result := some (Outcome.ret none none) }
      else
        match response.OpcNextPage with
        | some next => pageLoop setPage rowsRemaining answers (setPage request (some next)) run
        | none => { run with result := some (Outcome.ret none none) }

/-- The function `listContainerInstances` (lines 202-264). `compartment` is the
compartment of the matrix item (the region of the matrix item only selects the
session), `service` is the error returned by `containerInstancesService`
(`none`: a session was created), `answers` the answers of
`ListContainerInstances` to the successive requests. -/
def listContainerInstances (compartment : String) (d : QueryData)
    (service : Option Err) (rowsRemaining : Nat → Int)
    (answers : List (Except Err (ListResponse ContainerInstanceSummary))) :
    ListRun ListContainerInstancesRequest ContainerInstanceSummary :=
  let equalQuals := d.KeyColumnQuals
  if (equalQuals "compartment_id").isSome
      && compartment != GetStringValue (equalQuals "compartment_id") then
    { sessions := 0, requests := [], streamed := [], result := some (Outcome.ret none none) }
  else
    match service with
    | some err =>
      { sessions := 1, requests := [], streamed := [], result := some (Outcome.ret none (some err)) }
    | none =>
      let (request, isValid) := buildContainerInstanceFilters equalQuals
      if !isValid then
        { sessions := 1, requests := [], streamed := [], result := some (Outcome.ret none none) }
      else
        let pageSize : Int := 1000
        let request := { request with CompartmentId := some compartment }
        let request := { request with Limit := some pageSize }
        let request := { request with RequestMetadata := { RetryPolicy := d.defaultRetryPolicy } }
        let request :=
          match d.Limit with
          | some limit =>
            if limit < wrapInt64 pageSize then { request with Limit := some (wrapInt64 limit) }
            else request
          | none => request
        pageLoop (fun r page => { r with Page := page }) rowsRemaining answers request
          { sessions := 1, requests := [], streamed := [], result := none }

/-- The function `listDatabaseDBHomes` (lines 185-242). `service` is the error
returned by `databaseService`, `answers` the answers of `ListDbHomes`. -/
def listDatabaseDBHomes (compartment : String) (d : QueryData)
    (service : Option Err) (rowsRemaining : Nat → Int)
    (answers : List (Except Err (ListResponse DbHomeSummary))) :
    ListRun ListDbHomesRequest DbHomeSummary :=
  let equalQuals := d.KeyColumnQuals
  if (equalQuals "compartment_id").isSome
      && compartment != GetStringValue (equalQuals "compartment_id") then
    { sessions := 0, requests := [], streamed := [], result := some (Outcome.ret none none) }
  else
    match service with
    | some err =>
      { sessions := 1, requests := [], streamed := [], result := some (Outcome.ret none (some err)) }
    | none =>
      let pageSize : Int := 1000
      let request := buildDatabaseDBHomeFilters equalQuals
      let request := { request with CompartmentId := some compartment }
      let request := { request with Limit := some pageSize }
      let request := { request with RequestMetadata := { RetryPolicy := d.defaultRetryPolicy } }
      let request :=
        match d.Limit with
        | some limit =>
          if limit < wrapInt64 pageSize then { request with Limit := some (wrapInt64 limit) }
          else request
        | none => request
      pageLoop (fun r page => { r with Page := page }) rowsRemaining answers request
        { sessions := 1, requests := [], streamed := [], result := none }

/-! ## Detail fetchers -/

/-- What one invocation of a get or hydrate function did. -/
structure GetRun (Req : Type) where
  /-- How many times the service helper was asked for a session. -/
  sessions : Nat
  /-- The get requests issued, in order. -/
  calls : List Req
  /-- What the function did in the end. -/
  result : Outcome HydrateItem
  deriving DecidableEq, Repr

/-- The SDK type `database.GetDbHomeRequest`. -/
structure GetDbHomeRequest where
  DbHomeId : Option String
  RequestMetadata : RequestMetadata
  deriving DecidableEq, Repr

/-- The function `getDatabaseDBHome` (lines 246-283). `service` is the error
returned by `databaseService`, `client` the answer of `GetDbHome`. -/
def getDatabaseDBHome (compartment : String) (d : QueryData) (service : Option Err)
    (client : GetDbHomeRequest → Except Err DbHome) : GetRun GetDbHomeRequest :=
  if !stringsHasPrefix compartment "ocid1.tenancy.oc1" then
    { sessions := 0, calls := [], result := Outcome.ret none none }
  else
    let id := GetStringValue (d.KeyColumnQuals "id")
    if id = "" then
      { sessions := 0, calls := [], result := Outcome.ret none none }
    else
      match service with
      | some err => { sessions := 1, calls := [], result := Outcome.ret none (some err) }
      | none =>
        let request : GetDbHomeRequest :=
          { DbHomeId := some id, RequestMetadata := { RetryPolicy := d.defaultRetryPolicy } }
        match client request with
        | Except.error err =>
          { sessions := 1, calls := [request], result := Outcome.ret none (some err) }
        | Except.ok response =>
          { sessions := 1, calls := [request],
            result := Outcome.ret (some (HydrateItem.dbHome response)) none }

/-- The SDK type `containerinstances.GetContainerInstanceRequest`. -/
structure GetContainerInstanceRequest where
  ContainerInstanceId : Option String
  RequestMetadata : RequestMetadata
  deriving DecidableEq, Repr

/-- Lines 392-399 of `getContainerInstanceDetails`: wrap the fetched record and
copy four fields out of its shape configuration; a nil pointer on the way is a
panic, here `none`. -/
def containerInstanceInfoOf (response : ContainerInstance) : Option ContainerInstanceInfo := do
  let shapeConfig ← response.ShapeConfig
  let networkingBandwidthInGbps ← shapeConfig.NetworkingBandwidthInGbps
  let memoryInGBs ← shapeConfig.MemoryInGBs
  let ocpus ← shapeConfig.Ocpus
  let processorDescription ← shapeConfig.ProcessorDescription
  pure { ContainerInstance := response,
         NetworkingBandwidthInGbps := networkingBandwidthInGbps,
         ProcessorDescription := processorDescription,
         Ocpus := ocpus,
         MemoryInGBs := memoryInGBs }

/-- Lines 370-399 of `getContainerInstanceDetails`, after `id` is known. -/
def getContainerInstanceDetailsById (id : String) (d : QueryData) (service : Option Err)
    (client : GetContainerInstanceRequest → Except Err ContainerInstance) :
    GetRun GetContainerInstanceRequest :=
  if id = "" then
    { sessions := 0, calls := [], result := Outcome.ret none none }
  else
    match service with
    | some err => { sessions := 1, calls := [], result := Outcome.ret none (some err) }
    | none =>
      let request : GetContainerInstanceRequest :=
        { ContainerInstanceId := some id,
          RequestMetadata := { RetryPolicy := d.defaultRetryPolicy } }
      match client request with
      | Except.error err =>
        { sessions := 1, calls := [request], result := Outcome.ret none (some err) }
      | Except.ok response =>
        match containerInstanceInfoOf response with
        | none => { sessions := 1, calls := [request], result := Outcome.panic }
        | some containerInstanceInfo =>
          { sessions := 1, calls := [request],
            result := Outcome.ret (some (HydrateItem.containerInstanceInfo containerInstanceInfo)) none }

/-- The function `getContainerInstanceDetails` (lines 352-400). `item` is
`h.Item`, `service` the error returned by `containerInstancesService`,
`client` the answer of `GetContainerInstance`. -/
def getContainerInstanceDetails (compartment : String) (d : QueryData)
    (item : Option HydrateItem) (service : Option Err)
    (client : GetContainerInstanceRequest → Except Err ContainerInstance) :
    GetRun GetContainerInstanceRequest :=
  match item with
  | some (HydrateItem.containerInstanceSummary summary) =>
    match summary.Id with
    | some id => getContainerInstanceDetailsById id d service client
    | none => { sessions := 0, calls := [], result := Outcome.panic }
  | some _ => { sessions := 0, calls := [], result := Outcome.panic }
  | none =>
    let id := GetStringValue (d.KeyColumnQuals "id")
    if !stringsHasPrefix compartment "ocid1.tenancy.oc1" then
      { sessions := 0, calls := [], result := Outcome.ret none none }
    else getContainerInstanceDetailsById id d service client

/-! ## Dependent hydrator -/

/-- The SDK type `containerinstances.ContainerResourceConfig`. -/
structure ContainerResourceConfig where
  VcpusLimit : Option GoFloat32
  MemoryLimitInGBs : Option GoFloat32
  deriving DecidableEq, Repr

/-- The SDK type `containerinstances.Container`, embedded in
`GetContainerResponse`. -/
structure Container where
  DisplayName : Option String
  ImageUrl : Option String
  WorkingDirectory : Option String
  ExitCode : Option Int
  ContainerRestartAttemptCount : Option Int
  ResourceConfig : Option ContainerResourceConfig
  TimeTerminated : Option SDKTime
  TimeCreated : Option SDKTime
  TimeUpdated : Option SDKTime
  deriving DecidableEq, Repr

/-- The zero value of `containerinstances.GetContainerResponse`, as far as the
embedded container goes. -/
def Container.zero : Container :=
  { DisplayName := none, ImageUrl := none, WorkingDirectory := none, ExitCode := none,
    ContainerRestartAttemptCount := none, ResourceConfig := none, TimeTerminated := none,
    TimeCreated := none, TimeUpdated := none }

/-- The SDK type `containerinstances.GetContainerRequest`. -/
structure GetContainerRequest where
  ContainerId : Option String
  RequestMetadata : RequestMetadata
  deriving DecidableEq, Repr

/-- The composite literal `ContainerDetails{}`. -/
def ContainerDetails.zero : ContainerDetails :=
  { DisplayName := "", ImageUrl := "", ExitCode := 0, WorkingDirectory := "",
    ContainerRestartAttemptCount := 0, VcpusLimit := { bits := 0 },
    MemoryLimitInGBs := { bits := 0 }, TimeTerminated := { unixNanos := 0 },
    TimeCreated := { unixNanos := 0 }, TimeUpdated := { unixNanos := 0 } }

/-- Lines 323-346 of `getContainerInstanceContainers`: the `ContainerDetails`
built from the response `cresponse` of one `GetContainer` call. The three
unguarded dereferences (`DisplayName`, `ImageUrl`,
`ContainerRestartAttemptCount`) panic on a nil pointer, here `none`. -/
def containerDetailsOf (cresponse : Container) : Option ContainerDetails := do
  let containerDetails := ContainerDetails.zero
  let displayName ← cresponse.DisplayName
  let containerDetails := { containerDetails with DisplayName := displayName }
  let imageUrl ← cresponse.ImageUrl
  let containerDetails := { containerDetails with ImageUrl := imageUrl }
  let containerDetails :=
    match cresponse.WorkingDirectory with
    | some workingDirectory => { containerDetails with WorkingDirectory := workingDirectory }
    | none => containerDetails
  let containerDetails :=
    match cresponse.TimeUpdated with
    | some timeUpdated => { containerDetails with TimeUpdated := timeUpdated }
    | none => containerDetails
  let containerDetails :=
    match cresponse.TimeCreated with
    | some timeCreated => { containerDetails with TimeCreated := timeCreated }
    | none => containerDetails
  let containerDetails :=
    match cresponse.TimeTerminated with
    | some timeTerminated => { containerDetails with TimeTerminated := timeTerminated }
    | none => containerDetails
  let containerDetails :=
    match cresponse.ResourceConfig with
    | some resourceConfig =>
      let containerDetails :=
        match resourceConfig.MemoryLimitInGBs with
        | some memoryLimitInGBs => { containerDetails with MemoryLimitInGBs := memoryLimitInGBs }
        | none => containerDetails
      match resourceConfig.VcpusLimit with
      | some vcpusLimit => { containerDetails with VcpusLimit := vcpusLimit }
      | none => containerDetails
    | none => containerDetails
  let containerRestartAttemptCount ← cresponse.ContainerRestartAttemptCount
  pure { containerDetails with ContainerRestartAttemptCount := containerRestartAttemptCount }

/-- The loop `for idx, container := range containerInstance.Containers` (lines
313-348). `client idx crequest` is what `GetContainer` returns to the call made
for the child at position `idx`: a response and an error, the error being
dropped by the code. The result is the requests issued (appended to `calls`)
and the details stored at the positions from `idx` on, or `none` when an
iteration panics. -/
def fetchContainers (d : QueryData)
    (client : Nat → GetContainerRequest → Container × Option Err) :
    Nat → List ContainerInstanceContainer → List GetContainerRequest →
      List GetContainerRequest × Option (List ContainerDetails)
  | _, [], calls => (calls, some [])
  | idx, container :: rest, calls =>
    match container.ContainerId with
    | none => (calls, none)
    | some containerId =>
      let crequest : GetContainerRequest :=
        { ContainerId := some containerId,
          RequestMetadata := { RetryPolicy := d.defaultRetryPolicy } }
      let cresponse := (client idx crequest).1
      let calls := calls ++ [crequest]
      match containerDetailsOf cresponse with
      | none => (calls, none)
      | some containerDetails =>
        match fetchContainers d client (idx + 1) rest calls with
        | (calls, some details) => (calls, some (containerDetails :: details))
        | (calls, none) => (calls, none)

/-- The function `getContainerInstanceContainers` (lines 293-350).
`hydrateResult` is `h.HydrateResults["getContainerInstanceDetails"]`, `service`
the error returned by `containerInstancesService`, `client` the answers of
`GetContainer`. -/
def getContainerInstanceContainers (d : QueryData) (hydrateResult : Option HydrateItem)
    (service : Option Err) (client : Nat → GetContainerRequest → Container × Option Err) :
    GetRun GetContainerRequest :=
  match hydrateResult with
  | some (HydrateItem.containerInstanceInfo containerInstanceInfo) =>
    let containerInstance := containerInstanceInfo.ContainerInstance
    match service with
    | some err => { sessions := 1, calls := [], result := Outcome.ret none (some err) }
    | none =>
      match fetchContainers d client 0 containerInstance.Containers [] with
      | (calls, some containers) =>
        { sessions := 1, calls := calls,
          result := Outcome.ret
            (some (HydrateItem.containerInstanceContainers { Containers := containers })) none }
      | (calls, none) => { sessions := 1, calls := calls, result := Outcome.panic }
  | _ => { sessions := 0, calls := [], result := Outcome.panic }

/-- A `GetContainer` call returns no error and a complete container: one that
carries the display name, the image URL and the restart count, the three
fields that lines 324, 325 and 346 dereference without a nil guard. -/
def FetchComplete (answer : Container × Option Err) : Prop :=
  answer.2 = none ∧ answer.1.DisplayName ≠ none ∧ answer.1.ImageUrl ≠ none ∧
    answer.1.ContainerRestartAttemptCount ≠ none

/-! ## Tag merge: lemmas -/

theorem Tags.set_same (tags : Tags) (k : String) (v : Value) : Tags.set tags k v k = some v := by
  simp [Tags.set]

theorem Tags.set_other (tags : Tags) (k k' : String) (v : Value) (h : k' ≠ k) :
    Tags.set tags k v k' = tags k' := by
  simp [Tags.set, h]

/-- A run of assignments leaves a key alone when none of them writes it. -/
theorem foldl_set_absent {β : Type} (g : β → Value) (k : String) :
    ∀ (ws : List (String × β)) (t : Tags), (∀ b, (k, b) ∉ ws) →
      ws.foldl (fun tags kv => Tags.set tags kv.1 (g kv.2)) t k = t k
  | [], _, _ => rfl
  | w :: ws, t, h => by
    rw [List.foldl_cons, foldl_set_absent g k ws _ (fun b hb => h b (List.mem_cons_of_mem _ hb))]
    apply Tags.set_other
    intro hk
    apply h w.2
    rw [hk]
    exact List.mem_cons_self _ _

/-- After a run of assignments a key that some assignment writes holds the
value of one of the assignments that write it, whatever it held before. -/
theorem foldl_set_present {β : Type} (g : β → Value) (k : String) :
    ∀ (ws : List (String × β)), (∃ b, (k, b) ∈ ws) →
      ∃ b, (k, b) ∈ ws ∧
        ∀ t : Tags, ws.foldl (fun tags kv => Tags.set tags kv.1 (g kv.2)) t k = some (g b)
  | [], ⟨_, hb⟩ => absurd hb (List.not_mem_nil _)
  | w :: ws, h => by
    by_cases hr : ∃ b, (k, b) ∈ ws
    · obtain ⟨b, hb, he⟩ := foldl_set_present g k ws hr
      exact ⟨b, List.mem_cons_of_mem _ hb, fun t => he _⟩
    · obtain ⟨b, hb⟩ := h
      rcases List.mem_cons.1 hb with e | hb'
      · subst e
        refine ⟨b, List.mem_cons_self _ _, fun t => ?_⟩
        rw [List.foldl_cons, foldl_set_absent g k ws _ (fun b' hb' => hr ⟨b', hb'⟩)]
        exact Tags.set_same _ _ _
      · exact absurd ⟨b, hb'⟩ hr

/-- The defined-tags loops leave a key alone when no namespace holds it. -/
theorem foldl_namespaces_absent (k : String) :
    ∀ (D : List (String × GoMap String Value)) (t : Tags),
      (∀ ns m v, (ns, m) ∈ D → (k, v) ∉ m.range) →
      D.foldl (fun tags nsv => nsv.2.range.foldl
        (fun tags kv => Tags.set tags kv.1 kv.2) tags) t k = t k
  | [], _, _ => rfl
  | nsv :: D, t, h => by
    rw [List.foldl_cons, foldl_namespaces_absent k D _
      (fun ns m v hm => h ns m v (List.mem_cons_of_mem _ hm))]
    exact foldl_set_absent (fun v => v) k nsv.2.range t
      (fun v => h nsv.1 nsv.2 v (List.mem_cons_self _ _))

/-- After the defined-tags loops a key that some namespace holds has a value
that some namespace holds for it, whatever it held before. -/
theorem foldl_namespaces_present (k : String) :
    ∀ (D : List (String × GoMap String Value)),
      (∃ ns m v, (ns, m) ∈ D ∧ (k, v) ∈ m.range) →
      ∃ ns m v, (ns, m) ∈ D ∧ (k, v) ∈ m.range ∧
        ∀ t : Tags, D.foldl (fun tags nsv => nsv.2.range.foldl
          (fun tags kv => Tags.set tags kv.1 kv.2) tags) t k = some v
  | [], ⟨_, _, _, hm, _⟩ => absurd hm (List.not_mem_nil _)
  | nsv :: D, h => by
    by_cases hr : ∃ ns m v, (ns, m) ∈ D ∧ (k, v) ∈ m.range
    · obtain ⟨ns, m, v, hm, hv, he⟩ := foldl_namespaces_present k D hr
      exact ⟨ns, m, v, List.mem_cons_of_mem _ hm, hv, fun t => he _⟩
    · obtain ⟨ns, m, v, hm, hv⟩ := h
      rcases List.mem_cons.1 hm with e | hm'
      · subst e
        obtain ⟨b, hb, he⟩ := foldl_set_present (fun v => v) k m.range ⟨v, hv⟩
        refine ⟨ns, m, b, List.mem_cons_self _ _, hb, fun t => ?_⟩
        rw [List.foldl_cons, foldl_namespaces_absent k D _
          (fun ns' m' v' hm' hv' => hr ⟨ns', m', v', hm', hv'⟩)]
        exact he t
      · exact absurd ⟨ns, m, v, hm', hv⟩ hr

theorem definedHolds_iff (l : List (String × GoMap String Value)) (k : String) (v : Value) :
    DefinedHolds (some l) k v ↔ ∃ ns m, (ns, m) ∈ l ∧ (k, v) ∈ m.range := by
  constructor
  · rintro ⟨l', ns, m, e, hm, hv⟩
    cases e
    exact ⟨ns, some m, hm, hv⟩
  · rintro ⟨ns, m, hm, hv⟩
    cases m with
    | none => exact absurd hv (List.not_mem_nil _)
    | some m => exact ⟨l, ns, m, rfl, hm, hv⟩

/-- The four tag-bearing shapes are merged by the same code: each transform
result equals that of `dbHomeTags` on a `DbHome` with the same two tag maps. -/
theorem containerInstanceTags_summary_eq (s : ContainerInstanceSummary) :
    containerInstanceTags (HydrateItem.containerInstanceSummary s) =
      dbHomeTags (HydrateItem.dbHome ⟨none, none, none, s.FreeformTags, s.DefinedTags⟩) := rfl

theorem containerInstanceTags_instance_eq (c : ContainerInstance) :
    containerInstanceTags (HydrateItem.containerInstance c) =
      dbHomeTags (HydrateItem.dbHome ⟨none, none, none, c.FreeformTags, c.DefinedTags⟩) := rfl

theorem dbHomeTags_dbHome_eq (h : DbHome) :
    dbHomeTags (HydrateItem.dbHome h) =
      dbHomeTags (HydrateItem.dbHome ⟨none, none, none, h.FreeformTags, h.DefinedTags⟩) := rfl

theorem dbHomeTags_summary_eq (s : DbHomeSummary) :
    dbHomeTags (HydrateItem.dbHomeSummary s) =
      dbHomeTags (HydrateItem.dbHome ⟨none, none, none, s.FreeformTags, s.DefinedTags⟩) := rfl

/-- With a key held by the defined tags, the merge maps the key to a value the
defined tags hold for it, the same whatever the free-form map is. -/
theorem dbHomeTags_defined_wins (D : GoMap String (GoMap String Value)) (k : String)
    (hD : ∃ v, DefinedHolds D k v) :
    ∃ v, DefinedHolds D k v ∧ ∀ F : GoMap String String,
      MapsTo (dbHomeTags (HydrateItem.dbHome ⟨none, none, none, F, D⟩)) k v := by
  obtain ⟨v0, l, ns0, m0, rfl, hm0, hv0⟩ := hD
  obtain ⟨ns, m, v, hm, hv, he⟩ := foldl_namespaces_present k l ⟨ns0, some m0, v0, hm0, hv0⟩
  refine ⟨v, (definedHolds_iff l k v).2 ⟨ns, m, hm, hv⟩, fun F => ?_⟩
  cases F with
  | none => exact ⟨_, rfl, he _⟩
  | some f => exact ⟨_, rfl, he _⟩

/-! ## Tag merge: claims -/

/-- C1 (Tag Merge, `containerInstanceTags` and `dbHomeTags`): for a key `k` held
by the free-form map `F` (with value `f`) and by at least one namespace of the
defined-tags map `D`, there is a value `v` that `D` holds for `k` such that the
merged result of every tag-bearing shape with defined tags `D` and free-form
tags `F0` maps `k` to `v`, for `F0 = F` and for every other free-form map `F0`
alike: the value at `k` owes nothing to the free-form map, and it is `F`'s
value `f` only if `D` holds that very value for `k`. -/
theorem tagMerge_defined_overrides_freeform (F : GoMap String String)
    (D : GoMap String (GoMap String Value)) (k f : String)
    (_hF : FreeformHolds F k f) (hD : ∃ v, DefinedHolds D k v) :
    ∃ v, DefinedHolds D k v ∧ (v = Value.str f → DefinedHolds D k (Value.str f)) ∧
      ∀ F0 : GoMap String String,
        (∀ s : ContainerInstanceSummary, s.FreeformTags = F0 → s.DefinedTags = D →
          MapsTo (containerInstanceTags (HydrateItem.containerInstanceSummary s)) k v) ∧
        (∀ c : ContainerInstance, c.FreeformTags = F0 → c.DefinedTags = D →
          MapsTo (containerInstanceTags (HydrateItem.containerInstance c)) k v) ∧
        (∀ h : DbHome, h.FreeformTags = F0 → h.DefinedTags = D →
          MapsTo (dbHomeTags (HydrateItem.dbHome h)) k v) ∧
        (∀ s : DbHomeSummary, s.FreeformTags = F0 → s.DefinedTags = D →
          MapsTo (dbHomeTags (HydrateItem.dbHomeSummary s)) k v) := by
  obtain ⟨v, hv, hm⟩ := dbHomeTags_defined_wins D k hD
  refine ⟨v, hv, fun e => e ▸ hv, fun F0 => ⟨?_, ?_, ?_, ?_⟩⟩
  · intro s h1 h2
    rw [containerInstanceTags_summary_eq, h1, h2]
    exact hm F0
  · intro c h1 h2
    rw [containerInstanceTags_instance_eq, h1, h2]
    exact hm F0
  · intro h h1 h2
    rw [dbHomeTags_dbHome_eq, h1, h2]
    exact hm F0
  · intro s h1 h2
    rw [dbHomeTags_summary_eq, h1, h2]
    exact hm F0

/-- The example of the specification: free-form `{"env":"dev"}` and defined
`{"ns":{"env":"prod"}}` merge to `{"env":"prod"}`. -/
theorem tagMerge_example :
    containerInstanceTags (HydrateItem.containerInstanceSummary
      ⟨none, none, none, some [("env", "dev")], some [("ns", some [("env", Value.str "prod")])]⟩)
      = (some (some (Tags.set Tags.empty "env" (Value.str "prod"))), none) ∧
    dbHomeTags (HydrateItem.dbHome
      ⟨none, none, none, some [("env", "dev")], some [("ns", some [("env", Value.str "prod")])]⟩)
      = (some (some (Tags.set Tags.empty "env" (Value.str "prod"))), none) := by
  have h : Tags.set (Tags.set Tags.empty "env" (Value.str "dev")) "env" (Value.str "prod")
      = Tags.set Tags.empty "env" (Value.str "prod") := by
    funext k
    by_cases hk : k = "env" <;> simp [Tags.set, hk]
  constructor
  · show (some (some (Tags.set (Tags.set Tags.empty "env" (Value.str "dev")) "env"
      (Value.str "prod"))), none) = _
    rw [h]
  · show (some (some (Tags.set (Tags.set Tags.empty "env" (Value.str "dev")) "env"
      (Value.str "prod"))), none) = _
    rw [h]

/-- C1 at the example of the specification: `F = {"env":"dev"}`,
`D = {"ns":{"env":"prod"}}`, `k = "env"`. -/
theorem tagMerge_defined_overrides_freeform_witness :
    FreeformHolds (some [("env", "dev")]) "env" "dev" ∧
    (∃ v, DefinedHolds (some [("ns", some [("env", Value.str "prod")])]) "env" v) ∧
    ∃ v, DefinedHolds (some [("ns", some [("env", Value.str "prod")])]) "env" v ∧
      (v = Value.str "dev" →
        DefinedHolds (some [("ns", some [("env", Value.str "prod")])]) "env" (Value.str "dev")) ∧
      ∀ F0 : GoMap String String,
        (∀ s : ContainerInstanceSummary, s.FreeformTags = F0 →
          s.DefinedTags = some [("ns", some [("env", Value.str "prod")])] →
          MapsTo (containerInstanceTags (HydrateItem.containerInstanceSummary s)) "env" v) ∧
        (∀ c : ContainerInstance, c.FreeformTags = F0 →
          c.DefinedTags = some [("ns", some [("env", Value.str "prod")])] →
          MapsTo (containerInstanceTags (HydrateItem.containerInstance c)) "env" v) ∧
        (∀ h : DbHome, h.FreeformTags = F0 →
          h.DefinedTags = some [("ns", some [("env", Value.str "prod")])] →
          MapsTo (dbHomeTags (HydrateItem.dbHome h)) "env" v) ∧
        (∀ s : DbHomeSummary, s.FreeformTags = F0 →
          s.DefinedTags = some [("ns", some [("env", Value.str "prod")])] →
          MapsTo (dbHomeTags (HydrateItem.dbHomeSummary s)) "env" v) :=
  have hF : FreeformHolds (some [("env", "dev")]) "env" "dev" :=
    ⟨_, rfl, List.mem_cons_self _ _⟩
  have hD : ∃ v, DefinedHolds (some [("ns", some [("env", Value.str "prod")])]) "env" v :=
    ⟨Value.str "prod", _, "ns", [("env", Value.str "prod")], rfl,
      List.mem_cons_self _ _, List.mem_cons_self _ _⟩
  ⟨hF, hD, tagMerge_defined_overrides_freeform _ _ "env" "dev" hF hD⟩

/-! ## Tag merge: order of enumeration -/

/-- In a list of entries with distinct keys a key has one value. -/
theorem value_unique_of_keys_nodup {β : Type} (k : String) (a b : β) :
    ∀ (l : List (String × β)), (l.map Prod.fst).Nodup → (k, a) ∈ l → (k, b) ∈ l → a = b
  | [], _, ha, _ => absurd ha (List.not_mem_nil _)
  | w :: l, hn, ha, hb => by
    rw [List.map_cons, List.nodup_cons] at hn
    rcases List.mem_cons.1 ha with ea | ha'
    · rcases List.mem_cons.1 hb with eb | hb'
      · exact (Prod.mk.inj (ea.trans eb.symm)).2
      · exact absurd (List.mem_map_of_mem Prod.fst hb') (by rw [← ea] at hn; exact hn.1)
    · rcases List.mem_cons.1 hb with eb | hb'
      · exact absurd (List.mem_map_of_mem Prod.fst ha') (by rw [← eb] at hn; exact hn.1)
      · exact value_unique_of_keys_nodup k a b l hn.2 ha' hb'

/-- Two runs of assignments with the same members, each key written with one
value only, end in the same map. -/
theorem foldl_set_eq_of_mem_iff {β : Type} (g : β → Value) (l l' : List (String × β))
    (hmem : ∀ kb, kb ∈ l ↔ kb ∈ l')
    (hfun : ∀ k a b, (k, a) ∈ l → (k, b) ∈ l → g a = g b) (t : Tags) :
    l.foldl (fun tags kv => Tags.set tags kv.1 (g kv.2)) t =
      l'.foldl (fun tags kv => Tags.set tags kv.1 (g kv.2)) t := by
  funext k
  by_cases h : ∃ b, (k, b) ∈ l
  · obtain ⟨b, hb, he⟩ := foldl_set_present g k l h
    obtain ⟨b', hb', he'⟩ := foldl_set_present g k l' ⟨b, (hmem _).1 hb⟩
    rw [he t, he' t, hfun k b b' hb ((hmem _).2 hb')]
  · rw [foldl_set_absent g k l t (fun b hb => h ⟨b, hb⟩),
      foldl_set_absent g k l' t (fun b hb => h ⟨b, (hmem _).2 hb⟩)]

/-- Two enumerations of defined tags that hold the same values for the same
keys, each key with one value only, are merged into the same map. -/
theorem foldl_namespaces_eq_of_holds_iff (D D' : List (String × GoMap String Value))
    (hmem : ∀ k v, DefinedHolds (some D) k v ↔ DefinedHolds (some D') k v)
    (hfun : DefinedAgree (some D)) (t : Tags) :
    D.foldl (fun tags nsv => nsv.2.range.foldl
        (fun tags kv => Tags.set tags kv.1 kv.2) tags) t =
      D'.foldl (fun tags nsv => nsv.2.range.foldl
        (fun tags kv => Tags.set tags kv.1 kv.2) tags) t := by
  funext k
  by_cases h : ∃ ns m v, (ns, m) ∈ D ∧ (k, v) ∈ m.range
  · obtain ⟨ns, m, v, hm, hv, he⟩ := foldl_namespaces_present k D h
    have hv1 : DefinedHolds (some D) k v := (definedHolds_iff D k v).2 ⟨ns, m, hm, hv⟩
    obtain ⟨ns0, m0, h0, h1⟩ := (definedHolds_iff D' k v).1 ((hmem k v).1 hv1)
    obtain ⟨ns', m', v', hm', hv', he'⟩ := foldl_namespaces_present k D' ⟨ns0, m0, v, h0, h1⟩
    have hv2 : DefinedHolds (some D) k v' :=
      (hmem k v').2 ((definedHolds_iff D' k v').2 ⟨ns', m', hm', hv'⟩)
    rw [he t, he' t, hfun k v v' hv1 hv2]
  · have h' : ¬ ∃ ns m v, (ns, m) ∈ D' ∧ (k, v) ∈ m.range := by
      rintro ⟨ns, m, v, hm, hv⟩
      obtain ⟨ns0, m0, h0, h1⟩ := (definedHolds_iff D k v).1
        ((hmem k v).2 ((definedHolds_iff D' k v).2 ⟨ns, m, hm, hv⟩))
      exact h ⟨ns0, m0, v, h0, h1⟩
    rw [foldl_namespaces_absent k D t (fun ns m v hm hv => h ⟨ns, m, v, hm, hv⟩),
      foldl_namespaces_absent k D' t (fun ns m v hm hv => h' ⟨ns, m, v, hm, hv⟩)]

theorem reordered_mem_range_iff {K V : Type} (m m' : GoMap K V) (h : GoMap.Reordered m m')
    (kv : K × V) : kv ∈ m.range ↔ kv ∈ m'.range := by
  cases m with
  | none =>
    cases m' with
    | none => exact Iff.rfl
    | some l' => exact absurd h (by simp [GoMap.Reordered])
  | some l =>
    cases m' with
    | none => exact absurd h (by simp [GoMap.Reordered])
    | some l' => exact List.Perm.mem_iff h

theorem forall₂_reordered_holds (k : String) (v : Value) :
    ∀ (l l' : List (String × GoMap String Value)),
      List.Forall₂ (fun a b => a.1 = b.1 ∧ GoMap.Reordered a.2 b.2) l l' →
      ((∃ ns m, (ns, m) ∈ l ∧ (k, v) ∈ m.range) ↔ (∃ ns m, (ns, m) ∈ l' ∧ (k, v) ∈ m.range))
  | _, _, List.Forall₂.nil => by simp
  | a :: l, b :: l', List.Forall₂.cons hab hrest => by
    have ih := forall₂_reordered_holds k v l l' hrest
    have hr := reordered_mem_range_iff a.2 b.2 hab.2 (k, v)
    constructor
    · rintro ⟨ns, m, hm, hv⟩
      rcases List.mem_cons.1 hm with e | hm'
      · refine ⟨b.1, b.2, List.mem_cons_self _ _, hr.1 ?_⟩
        rw [← e]
        exact hv
      · obtain ⟨ns', m', h1, h2⟩ := ih.1 ⟨ns, m, hm', hv⟩
        exact ⟨ns', m', List.mem_cons_of_mem _ h1, h2⟩
    · rintro ⟨ns, m, hm, hv⟩
      rcases List.mem_cons.1 hm with e | hm'
      · refine ⟨a.1, a.2, List.mem_cons_self _ _, hr.2 ?_⟩
        rw [← e]
        exact hv
      · obtain ⟨ns', m', h1, h2⟩ := ih.2 ⟨ns, m, hm', hv⟩
        exact ⟨ns', m', List.mem_cons_of_mem _ h1, h2⟩

/-- A reordered enumeration of defined tags holds the same values for the
same keys. -/
theorem definedReordered_holds_iff (D D' : List (String × GoMap String Value))
    (h : DefinedReordered (some D) (some D')) (k : String) (v : Value) :
    DefinedHolds (some D) k v ↔ DefinedHolds (some D') k v := by
  obtain ⟨mid, hp, hf⟩ := h
  rw [definedHolds_iff, definedHolds_iff, ← forall₂_reordered_holds k v mid D' hf]
  constructor
  · rintro ⟨ns, m, hm, hv⟩
    exact ⟨ns, m, (List.Perm.mem_iff hp).1 hm, hv⟩
  · rintro ⟨ns, m, hm, hv⟩
    exact ⟨ns, m, (List.Perm.mem_iff hp).2 hm, hv⟩

/-- The result of `dbHomeTags` on a `DbHome`, by nil-ness of the two tag maps. -/
theorem dbHomeTags_nil_nil :
    dbHomeTags (HydrateItem.dbHome ⟨none, none, none, none, none⟩) = (some none, none) := rfl

theorem dbHomeTags_free_nil (l : List (String × String)) :
    dbHomeTags (HydrateItem.dbHome ⟨none, none, none, some l, none⟩) =
      (some (some (l.foldl (fun tags kv => Tags.set tags kv.1 (Value.str kv.2)) Tags.empty)),
        none) := rfl

theorem dbHomeTags_nil_defined (d : List (String × GoMap String Value)) :
    dbHomeTags (HydrateItem.dbHome ⟨none, none, none, none, some d⟩) =
      (some (some (d.foldl (fun tags nsv => nsv.2.range.foldl
        (fun tags kv => Tags.set tags kv.1 kv.2) tags) Tags.empty)), none) := rfl

theorem dbHomeTags_free_defined (l : List (String × String))
    (d : List (String × GoMap String Value)) :
    dbHomeTags (HydrateItem.dbHome ⟨none, none, none, some l, some d⟩) =
      (some (some (d.foldl (fun tags nsv => nsv.2.range.foldl
        (fun tags kv => Tags.set tags kv.1 kv.2) tags)
        (l.foldl (fun tags kv => Tags.set tags kv.1 (Value.str kv.2)) Tags.empty))), none) := rfl

/-- The merge of `dbHomeTags` does not depend on the order of enumeration when
the namespaces agree on the keys they share. -/
theorem dbHomeTags_reordered (F F' : GoMap String String)
    (D D' : GoMap String (GoMap String Value))
    (hF : GoMap.KeysDistinct F) (hFF : GoMap.Reordered F F')
    (hD : DefinedAgree D) (hDD : DefinedReordered D D') :
    dbHomeTags (HydrateItem.dbHome ⟨none, none, none, F, D⟩) =
      dbHomeTags (HydrateItem.dbHome ⟨none, none, none, F', D'⟩) := by
  have hfree : ∀ (l l' : List (String × String)), (l.map Prod.fst).Nodup → l.Perm l' →
      l.foldl (fun tags kv => Tags.set tags kv.1 (Value.str kv.2)) Tags.empty =
        l'.foldl (fun tags kv => Tags.set tags kv.1 (Value.str kv.2)) Tags.empty :=
    fun l l' hn hp => foldl_set_eq_of_mem_iff Value.str l l' (fun _ => List.Perm.mem_iff hp)
      (fun k a b ha hb => congrArg Value.str (value_unique_of_keys_nodup k a b l hn ha hb)) _
  cases F with
  | none =>
    cases F' with
    | some l' => exact absurd hFF (by simp [GoMap.Reordered])
    | none =>
      cases D with
      | none =>
        cases D' with
        | none => rfl
        | some d' => exact absurd hDD (by simp [DefinedReordered])
      | some d =>
        cases D' with
        | none => exact absurd hDD (by simp [DefinedReordered])
        | some d' =>
          rw [dbHomeTags_nil_defined, dbHomeTags_nil_defined,
            foldl_namespaces_eq_of_holds_iff d d' (definedReordered_holds_iff d d' hDD) hD]
  | some l =>
    cases F' with
    | none => exact absurd hFF (by simp [GoMap.Reordered])
    | some l' =>
      cases D with
      | none =>
        cases D' with
        | none => rw [dbHomeTags_free_nil, dbHomeTags_free_nil, hfree l l' hF hFF]
        | some d' => exact absurd hDD (by simp [DefinedReordered])
      | some d =>
        cases D' with
        | none => exact absurd hDD (by simp [DefinedReordered])
        | some d' =>
          rw [dbHomeTags_free_defined, dbHomeTags_free_defined,
            foldl_namespaces_eq_of_holds_iff d d' (definedReordered_holds_iff d d' hDD) hD,
            hfree l l' hF hFF]

/-- C2, counterexample: the defined tags `{"a":{"k":1},"b":{"k":2}}`, enumerated
once as `a, b` and once as `b, a`, are merged to a map with `k = 2` and to a
map with `k = 1`: two runs on the same tag bag give different outputs. -/
theorem tagMerge_order_dependent :
    DefinedReordered
      (some [("a", some [("k", Value.int 1)]), ("b", some [("k", Value.int 2)])])
      (some [("b", some [("k", Value.int 2)]), ("a", some [("k", Value.int 1)])]) ∧
    MapsTo (containerInstanceTags (HydrateItem.containerInstanceSummary ⟨none, none, none, none,
      some [("a", some [("k", Value.int 1)]), ("b", some [("k", Value.int 2)])]⟩))
      "k" (Value.int 2) ∧
    MapsTo (containerInstanceTags (HydrateItem.containerInstanceSummary ⟨none, none, none, none,
      some [("b", some [("k", Value.int 2)]), ("a", some [("k", Value.int 1)])]⟩))
      "k" (Value.int 1) ∧
    MapsTo (dbHomeTags (HydrateItem.dbHome ⟨none, none, none, none,
      some [("a", some [("k", Value.int 1)]), ("b", some [("k", Value.int 2)])]⟩))
      "k" (Value.int 2) ∧
    MapsTo (dbHomeTags (HydrateItem.dbHome ⟨none, none, none, none,
      some [("b", some [("k", Value.int 2)]), ("a", some [("k", Value.int 1)])]⟩))
      "k" (Value.int 1) ∧
    containerInstanceTags (HydrateItem.containerInstanceSummary ⟨none, none, none, none,
      some [("a", some [("k", Value.int 1)]), ("b", some [("k", Value.int 2)])]⟩) ≠
    containerInstanceTags (HydrateItem.containerInstanceSummary ⟨none, none, none, none,
      some [("b", some [("k", Value.int 2)]), ("a", some [("k", Value.int 1)])]⟩) ∧
    dbHomeTags (HydrateItem.dbHome ⟨none, none, none, none,
      some [("a", some [("k", Value.int 1)]), ("b", some [("k", Value.int 2)])]⟩) ≠
    dbHomeTags (HydrateItem.dbHome ⟨none, none, none, none,
      some [("b", some [("k", Value.int 2)]), ("a", some [("k", Value.int 1)])]⟩) := by
  have hne : ∀ t t' : Tags, t "k" = some (Value.int 2) → t' "k" = some (Value.int 1) →
      ((some (some t), none) : Option TagMap × Option Err) ≠ (some (some t'), none) := by
    intro t t' h h' e
    have e1 : t = t' := Option.some.inj (Option.some.inj (Prod.mk.inj e).1)
    rw [e1, h'] at h
    exact absurd h (by decide)
  refine ⟨⟨_, List.Perm.swap _ _ [], ?_⟩, ⟨_, rfl, rfl⟩, ⟨_, rfl, rfl⟩, ⟨_, rfl, rfl⟩,
    ⟨_, rfl, rfl⟩, hne _ _ rfl rfl, hne _ _ rfl rfl⟩
  exact List.Forall₂.cons ⟨rfl, List.Perm.refl _⟩
    (List.Forall₂.cons ⟨rfl, List.Perm.refl _⟩ List.Forall₂.nil)

/-- C2, amended (`containerInstanceTags` and `dbHomeTags`): when no key is held
with two different values by the namespaces of the defined-tags map `D`, the
merged result is the same whatever order the namespaces and the keys are
enumerated in: for every reordering `F'` of the free-form map `F` and every
reordering `D'` of `D`, each tag-bearing shape gives equal output on
`(F, D)` and on `(F', D')`. -/
theorem tagMerge_deterministic_when_namespaces_agree (F F' : GoMap String String)
    (D D' : GoMap String (GoMap String Value))
    (hF : GoMap.KeysDistinct F) (hFF : GoMap.Reordered F F')
    (hD : DefinedAgree D) (hDD : DefinedReordered D D') :
    (∀ s s' : ContainerInstanceSummary, s.FreeformTags = F → s.DefinedTags = D →
      s'.FreeformTags = F' → s'.DefinedTags = D' →
      containerInstanceTags (HydrateItem.containerInstanceSummary s) =
        containerInstanceTags (HydrateItem.containerInstanceSummary s')) ∧
    (∀ c c' : ContainerInstance, c.FreeformTags = F → c.DefinedTags = D →
      c'.FreeformTags = F' → c'.DefinedTags = D' →
      containerInstanceTags (HydrateItem.containerInstance c) =
        containerInstanceTags (HydrateItem.containerInstance c')) ∧
    (∀ h h' : DbHome, h.FreeformTags = F → h.DefinedTags = D →
      h'.FreeformTags = F' → h'.DefinedTags = D' →
      dbHomeTags (HydrateItem.dbHome h) = dbHomeTags (HydrateItem.dbHome h')) ∧
    (∀ s s' : DbHomeSummary, s.FreeformTags = F → s.DefinedTags = D →
      s'.FreeformTags = F' → s'.DefinedTags = D' →
      dbHomeTags (HydrateItem.dbHomeSummary s) = dbHomeTags (HydrateItem.dbHomeSummary s')) := by
  have key := dbHomeTags_reordered F F' D D' hF hFF hD hDD
  refine ⟨?_, ?_, ?_, ?_⟩
  · intro s s' h1 h2 h3 h4
    rw [containerInstanceTags_summary_eq, containerInstanceTags_summary_eq, h1, h2, h3, h4]
    exact key
  · intro c c' h1 h2 h3 h4
    rw [containerInstanceTags_instance_eq, containerInstanceTags_instance_eq, h1, h2, h3, h4]
    exact key
  · intro h h' h1 h2 h3 h4
    rw [dbHomeTags_dbHome_eq h, dbHomeTags_dbHome_eq h', h1, h2, h3, h4]
    exact key
  · intro s s' h1 h2 h3 h4
    rw [dbHomeTags_summary_eq, dbHomeTags_summary_eq, h1, h2, h3, h4]
    exact key

/-- C2 amended, at a concrete tag bag: free-form `{"env":"dev","team":"a"}` and
defined `{"ns1":{"env":"prod"},"ns2":{"env":"prod","tier":1}}`, enumerated in
two different orders, are merged to the same map. -/
theorem tagMerge_deterministic_when_namespaces_agree_witness :
    GoMap.KeysDistinct (some [("env", "dev"), ("team", "a")]) ∧
    GoMap.Reordered (some [("env", "dev"), ("team", "a")]) (some [("team", "a"), ("env", "dev")]) ∧
    DefinedAgree (some [("ns1", some [("env", Value.str "prod")]),
      ("ns2", some [("env", Value.str "prod"), ("tier", Value.int 1)])]) ∧
    DefinedReordered
      (some [("ns1", some [("env", Value.str "prod")]),
        ("ns2", some [("env", Value.str "prod"), ("tier", Value.int 1)])])
      (some [("ns2", some [("tier", Value.int 1), ("env", Value.str "prod")]),
        ("ns1", some [("env", Value.str "prod")])]) ∧
    containerInstanceTags (HydrateItem.containerInstanceSummary ⟨none, none, none,
      some [("env", "dev"), ("team", "a")],
      some [("ns1", some [("env", Value.str "prod")]),
        ("ns2", some [("env", Value.str "prod"), ("tier", Value.int 1)])]⟩) =
    containerInstanceTags (HydrateItem.containerInstanceSummary ⟨none, none, none,
      some [("team", "a"), ("env", "dev")],
      some [("ns2", some [("tier", Value.int 1), ("env", Value.str "prod")]),
        ("ns1", some [("env", Value.str "prod")])]⟩) ∧
    dbHomeTags (HydrateItem.dbHome ⟨none, none, none,
      some [("env", "dev"), ("team", "a")],
      some [("ns1", some [("env", Value.str "prod")]),
        ("ns2", some [("env", Value.str "prod"), ("tier", Value.int 1)])]⟩) =
    dbHomeTags (HydrateItem.dbHome ⟨none, none, none,
      some [("team", "a"), ("env", "dev")],
      some [("ns2", some [("tier", Value.int 1), ("env", Value.str "prod")]),
        ("ns1", some [("env", Value.str "prod")])]⟩) := by
  have h1 : GoMap.KeysDistinct (some [("env", "dev"), ("team", "a")]) := by
    simp [GoMap.KeysDistinct, GoMap.range]
  have h2 : GoMap.Reordered (some [("env", "dev"), ("team", "a")])
      (some [("team", "a"), ("env", "dev")]) := List.Perm.swap _ _ []
  have h3 : DefinedAgree (some [("ns1", some [("env", Value.str "prod")]),
      ("ns2", some [("env", Value.str "prod"), ("tier", Value.int 1)])]) := by
    rintro k v v' ⟨l, ns, m, e, hm, hv⟩ ⟨l', ns', m', e', hm', hv'⟩
    cases e
    cases e'
    simp only [List.mem_cons, Prod.mk.injEq, Option.some.injEq, List.mem_singleton,
      List.not_mem_nil, or_false] at hm hm'
    rcases hm with ⟨_, rfl⟩ | ⟨_, rfl⟩ <;> rcases hm' with ⟨_, rfl⟩ | ⟨_, rfl⟩ <;>
      simp only [List.mem_cons, Prod.mk.injEq, List.mem_singleton, List.not_mem_nil,
        or_false] at hv hv' <;>
      aesop
  have h4 : DefinedReordered
      (some [("ns1", some [("env", Value.str "prod")]),
        ("ns2", some [("env", Value.str "prod"), ("tier", Value.int 1)])])
      (some [("ns2", some [("tier", Value.int 1), ("env", Value.str "prod")]),
        ("ns1", some [("env", Value.str "prod")])]) :=
    ⟨_, List.Perm.swap _ _ [], List.Forall₂.cons ⟨rfl, List.Perm.swap _ _ []⟩
      (List.Forall₂.cons ⟨rfl, List.Perm.refl _⟩ List.Forall₂.nil)⟩
  have h := tagMerge_deterministic_when_namespaces_agree _ _ _ _ h1 h2 h3 h4
  exact ⟨h1, h2, h3, h4, h.1 _ _ rfl rfl rfl rfl, h.2.2.1 _ _ rfl rfl rfl rfl⟩

/-! ## Listers: row budget -/

/-- With a budget check that answers zero once `N` rows are out, the item loop
never goes beyond `N` rows, and it stays below `N` when it runs to its end. -/
theorem streamItems_budget {Item : Type} (rowsRemaining : Nat → Int) (N : Nat)
    (hzero : rowsRemaining N = 0) :
    ∀ (items streamed : List Item), streamed.length < N →
      (streamItems rowsRemaining items streamed).1.length ≤ N ∧
      ((streamItems rowsRemaining items streamed).2 = false →
        (streamItems rowsRemaining items streamed).1.length < N)
  | [], streamed, h => ⟨Nat.le_of_lt h, fun _ => h⟩
  | item :: rest, streamed, h => by
    have hlen : (streamed ++ [item]).length = streamed.length + 1 := by simp
    by_cases hr : rowsRemaining (streamed ++ [item]).length = 0
    · simp only [streamItems, hr, if_true]
      exact ⟨by omega, fun hf => absurd hf (by simp)⟩
    · simp only [streamItems, hr, if_false]
      have hne : (streamed ++ [item]).length ≠ N := fun e => hr (e ▸ hzero)
      exact streamItems_budget rowsRemaining N hzero rest (streamed ++ [item]) (by omega)

/-- The page loop never goes beyond `N` rows. -/
theorem pageLoop_budget {Req Item : Type} (setPage : Req → Option String → Req)
    (rowsRemaining : Nat → Int) (N : Nat) (hzero : rowsRemaining N = 0) :
    ∀ (answers : List (Except Err (ListResponse Item))) (request : Req) (run : ListRun Req Item),
      run.streamed.length < N →
      (pageLoop setPage rowsRemaining answers request run).streamed.length ≤ N
  | [], _, run, h => Nat.le_of_lt h
  | Except.error err :: answers, request, run, h => Nat.le_of_lt h
  | Except.ok response :: answers, request, run, h => by
    have hs := streamItems_budget rowsRemaining N hzero response.Items run.streamed h
    rw [pageLoop]
    rcases hst : streamItems rowsRemaining response.Items run.streamed with ⟨streamed, returned⟩
    rw [hst] at hs
    cases returned with
    | true => exact hs.1
    | false =>
      cases hnext : response.OpcNextPage with
      | none => simp only [hnext]; exact hs.1
      | some next =>
        simp only [hnext]
        exact pageLoop_budget setPage rowsRemaining N hzero answers _ _ (hs.2 rfl)

/-- C3, counterexample: with the quota `N = 0` and one page of one item, both
listers stream one row, whether "N minus the rows streamed" is read as a
signed or as a truncated difference. -/
theorem lister_quota_zero_streams_a_row :
    (listContainerInstances "c" ⟨fun _ => none, none, none⟩ none (fun n => (0 : Int) - n)
      [Except.ok ⟨[⟨some "i1", none, none, none, none⟩], none⟩]).streamed.length = 1 ∧
    (listContainerInstances "c" ⟨fun _ => none, none, none⟩ none (fun n => ((0 - n : Nat) : Int))
      [Except.ok ⟨[⟨some "i1", none, none, none, none⟩], none⟩]).streamed.length = 1 ∧
    (listDatabaseDBHomes "c" ⟨fun _ => none, none, none⟩ none (fun n => (0 : Int) - n)
      [Except.ok ⟨[⟨some "h1", none, none, none, none⟩], none⟩]).streamed.length = 1 ∧
    (listDatabaseDBHomes "c" ⟨fun _ => none, none, none⟩ none (fun n => ((0 - n : Nat) : Int))
      [Except.ok ⟨[⟨some "h1", none, none, none, none⟩], none⟩]).streamed.length = 1 := by
  refine ⟨?_, ?_, ?_, ?_⟩ <;> decide

/-- C3, amended (row budget): for every caller quota `N ≥ 1`, with
`RowsRemaining` reporting `N` minus the rows streamed so far, and every
sequence of answers of the list API, `listContainerInstances` and
`listDatabaseDBHomes` stream at most `N` rows in total across all pages. -/
theorem lister_streams_at_most_quota (N : Nat) (hN : 1 ≤ N) (rowsRemaining : Nat → Int)
    (hrows : ∀ n : Nat, rowsRemaining n = (N : Int) - (n : Int))
    (compartment : String) (d : QueryData) (service : Option Err)
    (answersCI : List (Except Err (ListResponse ContainerInstanceSummary)))
    (answersDB : List (Except Err (ListResponse DbHomeSummary))) :
    (listContainerInstances compartment d service rowsRemaining answersCI).streamed.length ≤ N ∧
    (listDatabaseDBHomes compartment d service rowsRemaining answersDB).streamed.length ≤ N := by
  have hzero : rowsRemaining N = 0 := by rw [hrows]; omega
  constructor
  · unfold listContainerInstances
    simp only [buildContainerInstanceFilters]
    split
    · exact Nat.zero_le _
    · split
      · exact Nat.zero_le _
      · split
        · exact Nat.zero_le _
        · exact pageLoop_budget _ rowsRemaining N hzero _ _ _ hN
  · unfold listDatabaseDBHomes
    simp only []
    split
    · exact Nat.zero_le _
    · split
      · exact Nat.zero_le _
      · exact pageLoop_budget _ rowsRemaining N hzero _ _ _ hN

/-- C3 amended, at a concrete run: quota 2, a first page of three items. -/
theorem lister_streams_at_most_quota_witness :
    1 ≤ 2 ∧ (∀ n : Nat, (fun n : Nat => (2 : Int) - (n : Int)) n = ((2 : Nat) : Int) - (n : Int)) ∧
    (listContainerInstances "c" ⟨fun _ => none, none, none⟩ none (fun n : Nat => (2 : Int) - (n : Int))
      [Except.ok ⟨[⟨some "i1", none, none, none, none⟩, ⟨some "i2", none, none, none, none⟩,
        ⟨some "i3", none, none, none, none⟩], some "p2"⟩]).streamed.length ≤ 2 ∧
    (listDatabaseDBHomes "c" ⟨fun _ => none, none, none⟩ none (fun n : Nat => (2 : Int) - (n : Int))
      [Except.ok ⟨[⟨some "h1", none, none, none, none⟩, ⟨some "h2", none, none, none, none⟩,
        ⟨some "h3", none, none, none, none⟩], some "p2"⟩]).streamed.length ≤ 2 :=
  ⟨by decide, fun _ => rfl,
    lister_streams_at_most_quota 2 (by decide) _ (fun _ => rfl) "c" _ none _ _⟩

/-! ## Filter builders -/

/-- C4, counterexample: a `db_system_id` predicate with the empty string as its
value populates `DbSystemId` (with a pointer to the empty string), and so do
the other three pointer fields for their predicates. -/
theorem dbHomeFilters_empty_value_populates :
    (buildDatabaseDBHomeFilters
      (fun k => if k = "db_system_id" then some (QualValue.StringValue "") else none)).DbSystemId
      = some "" ∧
    (buildDatabaseDBHomeFilters
      (fun k => if k = "db_version" then some (QualValue.StringValue "") else none)).DbVersion
      = some "" ∧
    (buildDatabaseDBHomeFilters
      (fun k => if k = "display_name" then some (QualValue.StringValue "") else none)).DisplayName
      = some "" ∧
    (buildDatabaseDBHomeFilters
      (fun k => if k = "vm_cluster_id" then some (QualValue.StringValue "") else none)).VmClusterId
      = some "" := by
  refine ⟨?_, ?_, ?_, ?_⟩ <;> decide

/-- C4, amended (`buildDatabaseDBHomeFilters`): for every predicate set `P`,
each of the pointer fields `DbSystemId`, `DbVersion`, `DisplayName` and
`VmClusterId` is populated if and only if `P` contains the matching predicate,
whatever its value (the empty string included), and then holds the string value
of that predicate; `LifecycleState` holds the string value of `lifecycle_state`
when `P` contains it and is empty otherwise; every other field (`CompartmentId`,
`Limit`, `Page`, `BackupId`, the sort fields, the request id and the request
metadata) is left unset. -/
theorem dbHomeFilters_populates_exactly_present (P : KeyColumnEqualsQualMap) :
    ((buildDatabaseDBHomeFilters P).DbSystemId ≠ none ↔ P "db_system_id" ≠ none) ∧
    (P "db_system_id" ≠ none →
      (buildDatabaseDBHomeFilters P).DbSystemId = some (GetStringValue (P "db_system_id"))) ∧
    ((buildDatabaseDBHomeFilters P).DbVersion ≠ none ↔ P "db_version" ≠ none) ∧
    (P "db_version" ≠ none →
      (buildDatabaseDBHomeFilters P).DbVersion = some (GetStringValue (P "db_version"))) ∧
    ((buildDatabaseDBHomeFilters P).DisplayName ≠ none ↔ P "display_name" ≠ none) ∧
    (P "display_name" ≠ none →
      (buildDatabaseDBHomeFilters P).DisplayName = some (GetStringValue (P "display_name"))) ∧
    ((buildDatabaseDBHomeFilters P).VmClusterId ≠ none ↔ P "vm_cluster_id" ≠ none) ∧
    (P "vm_cluster_id" ≠ none →
      (buildDatabaseDBHomeFilters P).VmClusterId = some (GetStringValue (P "vm_cluster_id"))) ∧
    (P "lifecycle_state" ≠ none →
      (buildDatabaseDBHomeFilters P).LifecycleState = GetStringValue (P "lifecycle_state")) ∧
    (P "lifecycle_state" = none → (buildDatabaseDBHomeFilters P).LifecycleState = "") ∧
    (buildDatabaseDBHomeFilters P).CompartmentId = none ∧
    (buildDatabaseDBHomeFilters P).Limit = none ∧
    (buildDatabaseDBHomeFilters P).Page = none ∧
    (buildDatabaseDBHomeFilters P).BackupId = none ∧
    (buildDatabaseDBHomeFilters P).SortBy = "" ∧
    (buildDatabaseDBHomeFilters P).SortOrder = "" ∧
    (buildDatabaseDBHomeFilters P).OpcRequestId = none ∧
    (buildDatabaseDBHomeFilters P).RequestMetadata = { RetryPolicy := none } := by
  unfold buildDatabaseDBHomeFilters
  cases h1 : P "db_system_id" <;> cases h2 : P "db_version" <;> cases h3 : P "display_name" <;>
    cases h4 : P "lifecycle_state" <;> cases h5 : P "vm_cluster_id" <;>
    simp [ListDbHomesRequest.zero]

/-- C4 amended, at a concrete predicate set: `db_system_id = "sys1"` and
`display_name = ""`. -/
theorem dbHomeFilters_populates_exactly_present_witness :
    (fun k => if k = "db_system_id" then some (QualValue.StringValue "sys1")
      else if k = "display_name" then some (QualValue.StringValue "") else none)
      "db_system_id" ≠ none ∧
    (fun k => if k = "db_system_id" then some (QualValue.StringValue "sys1")
      else if k = "display_name" then some (QualValue.StringValue "") else none)
      "display_name" ≠ none ∧
    (buildDatabaseDBHomeFilters
      (fun k => if k = "db_system_id" then some (QualValue.StringValue "sys1")
        else if k = "display_name" then some (QualValue.StringValue "") else none)).DbSystemId
      = some "sys1" ∧
    (buildDatabaseDBHomeFilters
      (fun k => if k = "db_system_id" then some (QualValue.StringValue "sys1")
        else if k = "display_name" then some (QualValue.StringValue "") else none)).DisplayName
      = some "" ∧
    (buildDatabaseDBHomeFilters
      (fun k => if k = "db_system_id" then some (QualValue.StringValue "sys1")
        else if k = "display_name" then some (QualValue.StringValue "") else none)).Limit
      = none :=
  have h := dbHomeFilters_populates_exactly_present
    (fun k => if k = "db_system_id" then some (QualValue.StringValue "sys1")
      else if k = "display_name" then some (QualValue.StringValue "") else none)
  ⟨by decide, by decide, h.2.1 (by decide), h.2.2.2.2.2.1 (by decide), h.2.2.2.2.2.2.2.2.2.2.2.1⟩

/-- C5, the failing input: a predicate on the declared key column
`display_name` with the value `"web"` leaves `DisplayName` unset (the request
is the zero request) and `isValid` true, because the builder reads the key
`"displayName"`; the value reaches the request only under that other key. -/
theorem containerInstanceFilters_ignore_display_name :
    buildContainerInstanceFilters
      (fun k => if k = "display_name" then some (QualValue.StringValue "web") else none)
      = (ListContainerInstancesRequest.zero, true) ∧
    (buildContainerInstanceFilters
      (fun k => if k = "display_name" then some (QualValue.StringValue "web") else none)).1.DisplayName
      = none ∧
    (buildContainerInstanceFilters
      (fun k => if k = "displayName" then some (QualValue.StringValue "web") else none)).1.DisplayName
      = some "web" := by
  refine ⟨?_, ?_, ?_⟩ <;> decide

/-! ## Listers: order of the rows and end of the paging -/

/-- While the budget check never answers zero, the item loop streams every
item of the page, in order, and does not return. -/
theorem streamItems_all {Item : Type} (rowsRemaining : Nat → Int) :
    ∀ (items streamed : List Item),
      (∀ n, streamed.length < n → n ≤ streamed.length + items.length → rowsRemaining n ≠ 0) →
      streamItems rowsRemaining items streamed = (streamed ++ items, false)
  | [], streamed, _ => by simp [streamItems]
  | item :: rest, streamed, h => by
    have hlen : (streamed ++ [item]).length = streamed.length + 1 := by simp
    have hr : rowsRemaining (streamed ++ [item]).length ≠ 0 :=
      h _ (by omega) (by simp)
    simp only [streamItems, hr, if_false]
    rw [streamItems_all rowsRemaining rest (streamed ++ [item])
      (fun n h1 h2 => h n (by omega) (by simp at h2 ⊢; omega))]
    simp

/-- One turn of the page loop on a page that is streamed in full and carries a
cursor: the request is recorded and the loop goes on with the cursor as `Page`. -/
theorem pageLoop_ok_next {Req Item : Type} (setPage : Req → Option String → Req)
    (rowsRemaining : Nat → Int) (response : ListResponse Item)
    (answers : List (Except Err (ListResponse Item))) (request : Req) (run : ListRun Req Item)
    (streamed : List Item) (next : String)
    (hs : streamItems rowsRemaining response.Items run.streamed = (streamed, false))
    (hnext : response.OpcNextPage = some next) :
    pageLoop setPage rowsRemaining (Except.ok response :: answers) request run =
      pageLoop setPage rowsRemaining answers (setPage request (some next))
        { sessions := run.sessions, requests := run.requests ++ [request],
          streamed := streamed, result := run.result } := by
  rw [pageLoop]
  simp [hs, hnext]

/-- One turn of the page loop on a page that is streamed in full and carries no
cursor: the request is recorded and the function returns `nil, nil`. -/
theorem pageLoop_ok_last {Req Item : Type} (setPage : Req → Option String → Req)
    (rowsRemaining : Nat → Int) (response : ListResponse Item)
    (answers : List (Except Err (ListResponse Item))) (request : Req) (run : ListRun Req Item)
    (streamed : List Item)
    (hs : streamItems rowsRemaining response.Items run.streamed = (streamed, false))
    (hnext : response.OpcNextPage = none) :
    pageLoop setPage rowsRemaining (Except.ok response :: answers) request run =
      { sessions := run.sessions, requests := run.requests ++ [request],
        streamed := streamed, result := some (Outcome.ret none none) } := by
  rw [pageLoop]
  simp [hs, hnext]

/-- The page loop on a run of pages with a cursor followed by a page without:
every item of these pages is streamed, in order, one request is issued for
each of them, and the function returns `nil, nil` without looking at any
further answer. -/
theorem pageLoop_pages {Req Item : Type} (setPage : Req → Option String → Req)
    (rowsRemaining : Nat → Int) (last : ListResponse Item)
    (rest : List (Except Err (ListResponse Item))) (hlast : last.OpcNextPage = none) :
    ∀ (pages : List (ListResponse Item)) (request : Req) (run : ListRun Req Item),
      (∀ p ∈ pages, p.OpcNextPage ≠ none) →
      (∀ n, run.streamed.length < n →
        n ≤ run.streamed.length + ((pages ++ [last]).flatMap (fun p => p.Items)).length →
        rowsRemaining n ≠ 0) →
      (pageLoop setPage rowsRemaining (pages.map Except.ok ++ Except.ok last :: rest)
          request run).streamed
        = run.streamed ++ (pages ++ [last]).flatMap (fun p => p.Items) ∧
      (pageLoop setPage rowsRemaining (pages.map Except.ok ++ Except.ok last :: rest)
          request run).requests.length = run.requests.length + (pages.length + 1) ∧
      (pageLoop setPage rowsRemaining (pages.map Except.ok ++ Except.ok last :: rest)
          request run).result = some (Outcome.ret none none) ∧
      (pageLoop setPage rowsRemaining (pages.map Except.ok ++ Except.ok last :: rest)
          request run).sessions = run.sessions
  | [], request, run, _, hb => by
    have hs := streamItems_all rowsRemaining last.Items run.streamed
      (fun n h1 h2 => hb n h1 (by simpa using h2))
    rw [List.map_nil, List.nil_append, pageLoop_ok_last setPage rowsRemaining last rest request
      run _ hs hlast]
    simp
  | page :: pages, request, run, hn, hb => by
    have hs := streamItems_all rowsRemaining page.Items run.streamed
      (fun n h1 h2 => hb n h1 (by simp at h2 ⊢; omega))
    obtain ⟨next, hnext⟩ := Option.ne_none_iff_exists'.1 (hn page (List.mem_cons_self _ _))
    have ih := pageLoop_pages setPage rowsRemaining last rest hlast pages
      (setPage request (some next))
      { sessions := run.sessions, requests := run.requests ++ [request],
        streamed := run.streamed ++ page.Items, result := run.result }
      (fun p hp => hn p (List.mem_cons_of_mem _ hp))
      (fun n h1 h2 => hb n (by simp at h1; omega) (by simp at h1 h2 ⊢; omega))
    rw [List.map_cons, List.cons_append, pageLoop_ok_next setPage rowsRemaining page _ request
      run _ next hs hnext]
    simp only [List.length_append, List.length_cons, List.length_nil, List.cons_append,
      List.flatMap_cons, List.append_assoc] at ih ⊢
    refine ⟨ih.1, ?_, ih.2.2.1, ih.2.2.2⟩
    rw [ih.2.1]
    omega

/-- The compartment guard of both listers lets the call through when there is
no `compartment_id` predicate or when its value is the compartment of the
scope. -/
theorem compartment_guard_passes (compartment : String) (d : QueryData)
    (hscope : d.KeyColumnQuals "compartment_id" = none ∨
      GetStringValue (d.KeyColumnQuals "compartment_id") = compartment) :
    ((d.KeyColumnQuals "compartment_id").isSome
      && compartment != GetStringValue (d.KeyColumnQuals "compartment_id")) = false := by
  rcases hscope with h | h
  · simp [h]
  · simp [h]

/-- Past the guard and with a session, `listContainerInstances` is the page
loop started on some first request with nothing streamed yet. -/
theorem listContainerInstances_eq_pageLoop (compartment : String) (d : QueryData)
    (rowsRemaining : Nat → Int)
    (answers : List (Except Err (ListResponse ContainerInstanceSummary)))
    (hscope : d.KeyColumnQuals "compartment_id" = none ∨
      GetStringValue (d.KeyColumnQuals "compartment_id") = compartment) :
    ∃ request, listContainerInstances compartment d none rowsRemaining answers =
      pageLoop (fun r page => { r with Page := page }) rowsRemaining answers request
        { sessions := 1, requests := [], streamed := [], result := none } := by
  unfold listContainerInstances
  simp only [compartment_guard_passes compartment d hscope, buildContainerInstanceFilters]
  exact ⟨_, rfl⟩

/-- Past the guard and with a session, `listDatabaseDBHomes` is the page loop
started on some first request with nothing streamed yet. -/
theorem listDatabaseDBHomes_eq_pageLoop (compartment : String) (d : QueryData)
    (rowsRemaining : Nat → Int)
    (answers : List (Except Err (ListResponse DbHomeSummary)))
    (hscope : d.KeyColumnQuals "compartment_id" = none ∨
      GetStringValue (d.KeyColumnQuals "compartment_id") = compartment) :
    ∃ request, listDatabaseDBHomes compartment d none rowsRemaining answers =
      pageLoop (fun r page => { r with Page := page }) rowsRemaining answers request
        { sessions := 1, requests := [], streamed := [], result := none } := by
  unfold listDatabaseDBHomes
  simp only [compartment_guard_passes compartment d hscope]
  exact ⟨_, rfl⟩

/-- C6 (lister order and stop, `listContainerInstances` and
`listDatabaseDBHomes`): past the compartment guard and with a session, for
every sequence of successful pages `pages ++ [last]` in which every page of
`pages` carries a next-page cursor and `last` carries none, and whatever
answers `rest` the list API would give afterwards, when the row budget is not
exhausted on the way (`RowsRemaining` is not zero after any of the rows of
these pages), the rows streamed are exactly the items of `pages ++ [last]`, in
page order and in server order inside each page, exactly one list request is
issued per page of `pages ++ [last]` and none after, and the function returns
`nil, nil`. -/
theorem lister_streams_pages_until_no_cursor (compartment : String) (d : QueryData)
    (rowsRemaining : Nat → Int)
    (hscope : d.KeyColumnQuals "compartment_id" = none ∨
      GetStringValue (d.KeyColumnQuals "compartment_id") = compartment) :
    (∀ (pages : List (ListResponse ContainerInstanceSummary))
        (last : ListResponse ContainerInstanceSummary)
        (rest : List (Except Err (ListResponse ContainerInstanceSummary))),
      (∀ p ∈ pages, p.OpcNextPage ≠ none) → last.OpcNextPage = none →
      (∀ n, 1 ≤ n → n ≤ ((pages ++ [last]).flatMap (fun p => p.Items)).length →
        rowsRemaining n ≠ 0) →
      (listContainerInstances compartment d none rowsRemaining
          (pages.map Except.ok ++ Except.ok last :: rest)).streamed
        = (pages ++ [last]).flatMap (fun p => p.Items) ∧
      (listContainerInstances compartment d none rowsRemaining
          (pages.map Except.ok ++ Except.ok last :: rest)).requests.length = pages.length + 1 ∧
      (listContainerInstances compartment d none rowsRemaining
          (pages.map Except.ok ++ Except.ok last :: rest)).result
        = some (Outcome.ret none none)) ∧
    (∀ (pages : List (ListResponse DbHomeSummary)) (last : ListResponse DbHomeSummary)
        (rest : List (Except Err (ListResponse DbHomeSummary))),
      (∀ p ∈ pages, p.OpcNextPage ≠ none) → last.OpcNextPage = none →
      (∀ n, 1 ≤ n → n ≤ ((pages ++ [last]).flatMap (fun p => p.Items)).length →
        rowsRemaining n ≠ 0) →
      (listDatabaseDBHomes compartment d none rowsRemaining
          (pages.map Except.ok ++ Except.ok last :: rest)).streamed
        = (pages ++ [last]).flatMap (fun p => p.Items) ∧
      (listDatabaseDBHomes compartment d none rowsRemaining
          (pages.map Except.ok ++ Except.ok last :: rest)).requests.length = pages.length + 1 ∧
      (listDatabaseDBHomes compartment d none rowsRemaining
          (pages.map Except.ok ++ Except.ok last :: rest)).result
        = some (Outcome.ret none none)) := by
  constructor
  · intro pages last rest hn hlast hb
    obtain ⟨request, he⟩ := listContainerInstances_eq_pageLoop compartment d rowsRemaining
      (pages.map Except.ok ++ Except.ok last :: rest) hscope
    have h := pageLoop_pages (fun r page => { r with Page := page }) rowsRemaining last rest
      hlast pages request { sessions := 1, requests := [], streamed := [], result := none } hn
      (fun n h1 h2 => hb n h1 (by simpa using h2))
    rw [he]
    exact ⟨by simpa using h.1, by simpa using h.2.1, h.2.2.1⟩
  · intro pages last rest hn hlast hb
    obtain ⟨request, he⟩ := listDatabaseDBHomes_eq_pageLoop compartment d rowsRemaining
      (pages.map Except.ok ++ Except.ok last :: rest) hscope
    have h := pageLoop_pages (fun r page => { r with Page := page }) rowsRemaining last rest
      hlast pages request { sessions := 1, requests := [], streamed := [], result := none } hn
      (fun n h1 h2 => hb n h1 (by simpa using h2))
    rw [he]
    exact ⟨by simpa using h.1, by simpa using h.2.1, h.2.2.1⟩

/-- C6 at a concrete run: two pages, the second without cursor, then an answer
that is never asked for; no row limit. -/
theorem lister_streams_pages_until_no_cursor_witness :
    ((⟨fun _ => none, none, none⟩ : QueryData).KeyColumnQuals "compartment_id" = none ∨
      GetStringValue ((⟨fun _ => none, none, none⟩ : QueryData).KeyColumnQuals "compartment_id")
        = "c") ∧
    (listContainerInstances "c" ⟨fun _ => none, none, none⟩ none (fun _ => 2147483647)
        ([⟨[⟨some "i1", none, none, none, none⟩, ⟨some "i2", none, none, none, none⟩],
            some "p2"⟩].map Except.ok
          ++ Except.ok ⟨[⟨some "i3", none, none, none, none⟩], none⟩
            :: [Except.error "never asked"])).streamed
      = [⟨some "i1", none, none, none, none⟩, ⟨some "i2", none, none, none, none⟩,
          ⟨some "i3", none, none, none, none⟩] ∧
    (listContainerInstances "c" ⟨fun _ => none, none, none⟩ none (fun _ => 2147483647)
        ([⟨[⟨some "i1", none, none, none, none⟩, ⟨some "i2", none, none, none, none⟩],
            some "p2"⟩].map Except.ok
          ++ Except.ok ⟨[⟨some "i3", none, none, none, none⟩], none⟩
            :: [Except.error "never asked"])).requests.length = 2 ∧
    (listContainerInstances "c" ⟨fun _ => none, none, none⟩ none (fun _ => 2147483647)
        ([⟨[⟨some "i1", none, none, none, none⟩, ⟨some "i2", none, none, none, none⟩],
            some "p2"⟩].map Except.ok
          ++ Except.ok ⟨[⟨some "i3", none, none, none, none⟩], none⟩
            :: [Except.error "never asked"])).result = some (Outcome.ret none none) :=
  ⟨Or.inl rfl,
    (lister_streams_pages_until_no_cursor "c" ⟨fun _ => none, none, none⟩ (fun _ => 2147483647)
      (Or.inl rfl)).1
      [⟨[⟨some "i1", none, none, none, none⟩, ⟨some "i2", none, none, none, none⟩], some "p2"⟩]
      ⟨[⟨some "i3", none, none, none, none⟩], none⟩ [Except.error "never asked"]
      (by simp) rfl (fun _ _ _ => by decide)⟩

/-! ## Dependent hydrator and the shapes of the tag transform -/

/-- A response without display name, such as the zero response that comes with
a failed `GetContainer`, makes the dereference of line 324 panic. -/
theorem containerDetailsOf_nil_displayName (cresponse : Container)
    (h : cresponse.DisplayName = none) : containerDetailsOf cresponse = none := by
  simp [containerDetailsOf, h]

/-- C7, the failing input: a parent with the single child reference `c1` whose
`GetContainer` call fails with the zero response. The call is issued and the
function then panics on `*cresponse.DisplayName`; it does not return a list
with a zero-value detail. With two children of which only the second fails
the function panics as well, after both calls. -/
theorem hydrator_panics_on_failed_child :
    getContainerInstanceContainers ⟨fun _ => none, none, none⟩
      (some (HydrateItem.containerInstanceInfo
        ⟨⟨some "ci", none, none, none, [⟨some "c1", none⟩], none, none⟩, ⟨0⟩, "", ⟨0⟩, ⟨0⟩⟩))
      none (fun _ _ => (Container.zero, some "request failed"))
      = { sessions := 1, calls := [⟨some "c1", ⟨none⟩⟩], result := Outcome.panic } ∧
    getContainerInstanceContainers ⟨fun _ => none, none, none⟩
      (some (HydrateItem.containerInstanceInfo
        ⟨⟨some "ci", none, none, none, [⟨some "c1", none⟩, ⟨some "c2", none⟩], none, none⟩,
          ⟨0⟩, "", ⟨0⟩, ⟨0⟩⟩))
      none (fun idx _ =>
        if idx = 0 then
          ({ DisplayName := some "web", ImageUrl := some "img", WorkingDirectory := none,
             ExitCode := none, ContainerRestartAttemptCount := some 0, ResourceConfig := none,
             TimeTerminated := none, TimeCreated := none, TimeUpdated := none }, none)
        else (Container.zero, some "request failed"))
      = { sessions := 1, calls := [⟨some "c1", ⟨none⟩⟩, ⟨some "c2", ⟨none⟩⟩],
          result := Outcome.panic } := by
  constructor <;> decide

/-- C8, the failing input: the record that `getContainerInstanceDetails`
returns is a `ContainerInstanceInfo`, which the type switch of
`containerInstanceTags` does not name, so the transform returns `nil, nil` for
it, whatever tags it carries; the same tags in a `ContainerInstance` are
merged. -/
theorem containerInstanceTags_misses_detail_record :
    (∀ info : ContainerInstanceInfo,
      containerInstanceTags (HydrateItem.containerInstanceInfo info) = (none, none)) ∧
    (getContainerInstanceDetails "ocid1.tenancy.oc1..t"
      ⟨fun k => if k = "id" then some (QualValue.StringValue "ci") else none, none, none⟩
      none none
      (fun _ => Except.ok ⟨some "ci", none, none, some ⟨some ⟨1⟩, some ⟨1⟩, some "cpu", some ⟨1⟩⟩,
        [], some [("env", "dev")], none⟩)).result
      = Outcome.ret (some (HydrateItem.containerInstanceInfo
          ⟨⟨some "ci", none, none, some ⟨some ⟨1⟩, some ⟨1⟩, some "cpu", some ⟨1⟩⟩,
            [], some [("env", "dev")], none⟩, ⟨1⟩, "cpu", ⟨1⟩, ⟨1⟩⟩)) none ∧
    containerInstanceTags (HydrateItem.containerInstanceInfo
        ⟨⟨some "ci", none, none, some ⟨some ⟨1⟩, some ⟨1⟩, some "cpu", some ⟨1⟩⟩,
          [], some [("env", "dev")], none⟩, ⟨1⟩, "cpu", ⟨1⟩, ⟨1⟩⟩) = (none, none) ∧
    MapsTo (containerInstanceTags (HydrateItem.containerInstance
        ⟨some "ci", none, none, some ⟨some ⟨1⟩, some ⟨1⟩, some "cpu", some ⟨1⟩⟩,
          [], some [("env", "dev")], none⟩)) "env" (Value.str "dev") := by
  refine ⟨fun _ => rfl, by decide, rfl, ⟨_, rfl, rfl⟩⟩

/-- Every value that lines 370-399 of `getContainerInstanceDetails` return is a
`ContainerInstanceInfo`. -/
theorem getContainerInstanceDetailsById_returns_info (id : String) (d : QueryData)
    (service : Option Err)
    (client : GetContainerInstanceRequest → Except Err ContainerInstance)
    (value : HydrateItem) (err : Option Err)
    (h : (getContainerInstanceDetailsById id d service client).result
      = Outcome.ret (some value) err) :
    ∃ info, value = HydrateItem.containerInstanceInfo info := by
  unfold getContainerInstanceDetailsById at h
  split at h
  · simp at h
  · split at h
    · simp at h
    · dsimp only at h
      split at h
      · simp at h
      · split at h
        · simp at h
        · simp only [Outcome.ret.injEq, Option.some.injEq] at h
          exact ⟨_, h.1.symm⟩

/-- Every value that `getContainerInstanceDetails` returns is a
`ContainerInstanceInfo`. -/
theorem getContainerInstanceDetails_returns_info (compartment : String) (d : QueryData)
    (item : Option HydrateItem) (service : Option Err)
    (client : GetContainerInstanceRequest → Except Err ContainerInstance)
    (value : HydrateItem) (err : Option Err)
    (h : (getContainerInstanceDetails compartment d item service client).result
      = Outcome.ret (some value) err) :
    ∃ info, value = HydrateItem.containerInstanceInfo info := by
  unfold getContainerInstanceDetails at h
  split at h
  · split at h
    · exact getContainerInstanceDetailsById_returns_info _ d service client value err h
    · simp at h
  · simp at h
  · dsimp only at h
    split at h
    · simp at h
    · exact getContainerInstanceDetailsById_returns_info _ d service client value err h

/-! ## Listers: page size -/

/-- A property of the first request that `request.Page = ...` preserves holds
of every request the page loop issues. -/
theorem pageLoop_requests_inv {Req Item : Type} (setPage : Req → Option String → Req)
    (rowsRemaining : Nat → Int) (P : Req → Prop)
    (hset : ∀ r page, P r → P (setPage r page)) :
    ∀ (answers : List (Except Err (ListResponse Item))) (request : Req) (run : ListRun Req Item),
      P request → (∀ r ∈ run.requests, P r) →
      ∀ r ∈ (pageLoop setPage rowsRemaining answers request run).requests, P r
  | [], request, run, hreq, hrun => by
    intro r hr
    simp only [pageLoop, List.mem_append, List.mem_singleton] at hr
    rcases hr with hr | hr
    · exact hrun r hr
    · exact hr ▸ hreq
  | Except.error err :: answers, request, run, hreq, hrun => by
    intro r hr
    simp only [pageLoop, List.mem_append, List.mem_singleton] at hr
    rcases hr with hr | hr
    · exact hrun r hr
    · exact hr ▸ hreq
  | Except.ok response :: answers, request, run, hreq, hrun => by
    have hrun' : ∀ r ∈ run.requests ++ [request], P r := by
      intro r hr
      rcases List.mem_append.1 hr with hr | hr
      · exact hrun r hr
      · exact (List.mem_singleton.1 hr) ▸ hreq
    rw [pageLoop]
    rcases hst : streamItems rowsRemaining response.Items run.streamed with ⟨streamed, returned⟩
    cases returned with
    | true => exact hrun'
    | false =>
      cases hnext : response.OpcNextPage with
      | none => exact hrun'
      | some next =>
        exact pageLoop_requests_inv setPage rowsRemaining P hset answers _ _
          (hset _ _ hreq) hrun'

/-- The conversion of a value of the signed 64-bit range leaves it as it is. -/
theorem wrapInt64_of_range (x : Int) (h1 : -9223372036854775808 ≤ x)
    (h2 : x < 9223372036854775808) : wrapInt64 x = x := by
  unfold wrapInt64
  omega

/-- Every request of `listContainerInstances` carries the page size computed
before the loop. -/
theorem listContainerInstances_limit (compartment : String) (d : QueryData)
    (service : Option Err) (rowsRemaining : Nat → Int)
    (answers : List (Except Err (ListResponse ContainerInstanceSummary))) :
    ∀ req ∈ (listContainerInstances compartment d service rowsRemaining answers).requests,
      req.Limit = some (match d.Limit with
        | some l => if l < wrapInt64 1000 then wrapInt64 l else 1000
        | none => 1000) := by
  unfold listContainerInstances
  simp only [buildContainerInstanceFilters]
  split
  · intro req hreq
    exact absurd hreq (List.not_mem_nil _)
  · split
    · intro req hreq
      exact absurd hreq (List.not_mem_nil _)
    · split
      · intro req hreq
        exact absurd hreq (List.not_mem_nil _)
      · apply pageLoop_requests_inv _ rowsRemaining
          (fun r : ListContainerInstancesRequest => r.Limit = some (match d.Limit with
            | some l => if l < wrapInt64 1000 then wrapInt64 l else 1000
            | none => 1000))
        · intro r page h
          exact h
        · cases d.Limit with
          | none => rfl
          | some l => by_cases h : l < wrapInt64 1000 <;> simp [h]
        · intro r hr
          exact absurd hr (List.not_mem_nil _)

/-- Every request of `listDatabaseDBHomes` carries the page size computed
before the loop. -/
theorem listDatabaseDBHomes_limit (compartment : String) (d : QueryData)
    (service : Option Err) (rowsRemaining : Nat → Int)
    (answers : List (Except Err (ListResponse DbHomeSummary))) :
    ∀ req ∈ (listDatabaseDBHomes compartment d service rowsRemaining answers).requests,
      req.Limit = some (match d.Limit with
        | some l => if l < wrapInt64 1000 then wrapInt64 l else 1000
        | none => 1000) := by
  unfold listDatabaseDBHomes
  simp only []
  split
  · intro req hreq
    exact absurd hreq (List.not_mem_nil _)
  · split
    · intro req hreq
      exact absurd hreq (List.not_mem_nil _)
    · apply pageLoop_requests_inv _ rowsRemaining
        (fun r : ListDbHomesRequest => r.Limit = some (match d.Limit with
          | some l => if l < wrapInt64 1000 then wrapInt64 l else 1000
          | none => 1000))
      · intro r page h
        exact h
      · cases d.Limit with
        | none => rfl
        | some l => by_cases h : l < wrapInt64 1000 <;> simp [h]
      · intro r hr
        exact absurd hr (List.not_mem_nil _)

/-- The page size computed for a row limit `L` of the signed 64-bit range. -/
theorem pageSize_of_limit (L : Int) (h1 : -9223372036854775808 ≤ L)
    (h2 : L < 9223372036854775808) :
    (if L < wrapInt64 1000 then wrapInt64 L else 1000) = min 1000 L := by
  have h1000 : wrapInt64 1000 = 1000 := by decide
  rw [h1000, wrapInt64_of_range L h1 h2]
  by_cases h : L < 1000
  · simp [h, min_eq_right (le_of_lt h)]
  · simp [h, min_eq_left (not_lt.1 h)]

/-- C9 (page size, `listContainerInstances` and `listDatabaseDBHomes`): for
every query, every list request that the lister issues carries `Limit = 1000`
when the caller gives no row limit and `Limit = min(1000, L)` when the
caller's row limit is `L` (an `int64`). -/
theorem lister_request_limit (compartment : String) (d : QueryData) (service : Option Err)
    (rowsRemaining : Nat → Int)
    (answersCI : List (Except Err (ListResponse ContainerInstanceSummary)))
    (answersDB : List (Except Err (ListResponse DbHomeSummary)))
    (hL : ∀ L, d.Limit = some L → -9223372036854775808 ≤ L ∧ L < 9223372036854775808) :
    (d.Limit = none →
      (∀ req ∈ (listContainerInstances compartment d service rowsRemaining answersCI).requests,
        req.Limit = some 1000) ∧
      (∀ req ∈ (listDatabaseDBHomes compartment d service rowsRemaining answersDB).requests,
        req.Limit = some 1000)) ∧
    (∀ L, d.Limit = some L →
      (∀ req ∈ (listContainerInstances compartment d service rowsRemaining answersCI).requests,
        req.Limit = some (min 1000 L)) ∧
      (∀ req ∈ (listDatabaseDBHomes compartment d service rowsRemaining answersDB).requests,
        req.Limit = some (min 1000 L))) := by
  have hci := listContainerInstances_limit compartment d service rowsRemaining answersCI
  have hdb := listDatabaseDBHomes_limit compartment d service rowsRemaining answersDB
  constructor
  · intro hnone
    rw [hnone] at hci hdb
    exact ⟨hci, hdb⟩
  · intro L hsome
    obtain ⟨h1, h2⟩ := hL L hsome
    rw [hsome] at hci hdb
    simp only [pageSize_of_limit L h1 h2] at hci hdb
    exact ⟨hci, hdb⟩

/-- C9 at concrete queries: a row limit of 5 gives requests with `Limit = 5`,
on the first page and on the second. -/
theorem lister_request_limit_witness :
    (∀ L, (⟨fun _ => none, some 5, none⟩ : QueryData).Limit = some L →
      -9223372036854775808 ≤ L ∧ L < 9223372036854775808) ∧
    (listContainerInstances "c" ⟨fun _ => none, some 5, none⟩ none (fun n => 5 - (n : Int))
      [Except.ok ⟨[⟨some "i1", none, none, none, none⟩], some "p2"⟩,
        Except.ok ⟨[⟨some "i2", none, none, none, none⟩], none⟩]).requests.map (fun r => r.Limit)
      = [some 5, some 5] ∧
    (∀ req ∈ (listContainerInstances "c" ⟨fun _ => none, some 5, none⟩ none
        (fun n => 5 - (n : Int))
        [Except.ok ⟨[⟨some "i1", none, none, none, none⟩], some "p2"⟩,
          Except.ok ⟨[⟨some "i2", none, none, none, none⟩], none⟩]).requests,
      req.Limit = some (min 1000 5)) ∧
    (∀ req ∈ (listDatabaseDBHomes "c" ⟨fun _ => none, some 5, none⟩ none
        (fun n => 5 - (n : Int))
        [Except.ok ⟨[⟨some "h1", none, none, none, none⟩], some "p2"⟩,
          Except.ok ⟨[⟨some "h2", none, none, none, none⟩], none⟩]).requests,
      req.Limit = some (min 1000 5)) :=
  have hL : ∀ L, (⟨fun _ => none, some 5, none⟩ : QueryData).Limit = some L →
      -9223372036854775808 ≤ L ∧ L < 9223372036854775808 := by
    intro L h
    have e : (5 : Int) = L := Option.some.inj h
    subst e
    decide
  ⟨hL, by decide,
    (lister_request_limit "c" ⟨fun _ => none, some 5, none⟩ none (fun n => 5 - (n : Int)) _ _
      hL).2 5 rfl⟩

/-! ## Detail fetchers: guard of the direct lookup -/

/-- C10 (direct-lookup guard): for `getDatabaseDBHome`, and for
`getContainerInstanceDetails` without list item (`h.Item` nil), if the `id` key
is the empty string or the compartment of the scope does not start with
`"ocid1.tenancy.oc1"`, the function returns `nil, nil`, no session is asked
for and no get request is issued. -/
theorem direct_lookup_guard (compartment : String) (d : QueryData) (service : Option Err)
    (clientDB : GetDbHomeRequest → Except Err DbHome)
    (clientCI : GetContainerInstanceRequest → Except Err ContainerInstance)
    (h : GetStringValue (d.KeyColumnQuals "id") = "" ∨
      stringsHasPrefix compartment "ocid1.tenancy.oc1" = false) :
    getDatabaseDBHome compartment d service clientDB
      = { sessions := 0, calls := [], result := Outcome.ret none none } ∧
    getContainerInstanceDetails compartment d none service clientCI
      = { sessions := 0, calls := [], result := Outcome.ret none none } := by
  constructor
  · unfold getDatabaseDBHome
    rcases h with h | h
    · by_cases hp : stringsHasPrefix compartment "ocid1.tenancy.oc1" = true <;> simp [hp, h]
    · simp [h]
  · unfold getContainerInstanceDetails getContainerInstanceDetailsById
    rcases h with h | h
    · by_cases hp : stringsHasPrefix compartment "ocid1.tenancy.oc1" = true <;> simp [hp, h]
    · simp [h]

/-- C10 at two concrete lookups: an empty id in the tenancy scope, and an id in
a compartment that is not the tenancy. -/
theorem direct_lookup_guard_witness :
    (GetStringValue ((⟨fun _ => none, none, none⟩ : QueryData).KeyColumnQuals "id") = "" ∨
      stringsHasPrefix "ocid1.tenancy.oc1..t" "ocid1.tenancy.oc1" = false) ∧
    (getDatabaseDBHome "ocid1.tenancy.oc1..t" ⟨fun _ => none, none, none⟩ none
        (fun _ => Except.error "never called")
      = { sessions := 0, calls := [], result := Outcome.ret none none } ∧
    getContainerInstanceDetails "ocid1.tenancy.oc1..t" ⟨fun _ => none, none, none⟩ none none
        (fun _ => Except.error "never called")
      = { sessions := 0, calls := [], result := Outcome.ret none none }) ∧
    (getDatabaseDBHome "ocid1.compartment.oc1..c"
        ⟨fun k => if k = "id" then some (QualValue.StringValue "ocid1.dbhome.oc1..h") else none,
          none, none⟩ none (fun _ => Except.error "never called")
      = { sessions := 0, calls := [], result := Outcome.ret none none } ∧
    getContainerInstanceDetails "ocid1.compartment.oc1..c"
        ⟨fun k => if k = "id" then some (QualValue.StringValue "ocid1.dbhome.oc1..h") else none,
          none, none⟩ none none (fun _ => Except.error "never called")
      = { sessions := 0, calls := [], result := Outcome.ret none none }) :=
  ⟨Or.inl rfl,
    direct_lookup_guard "ocid1.tenancy.oc1..t" ⟨fun _ => none, none, none⟩ none _ _ (Or.inl rfl),
    direct_lookup_guard "ocid1.compartment.oc1..c" _ none _ _ (Or.inr (by decide))⟩

/-- Past the guard the direct lookup does reach the API: in the tenancy scope
and with a non-empty id, one session is asked for and one get request is
issued. -/
theorem direct_lookup_reaches_api :
    getDatabaseDBHome "ocid1.tenancy.oc1..t"
        ⟨fun k => if k = "id" then some (QualValue.StringValue "h1") else none, none, none⟩ none
        (fun _ => Except.ok ⟨some "h1", none, none, none, none⟩)
      = { sessions := 1, calls := [⟨some "h1", ⟨none⟩⟩],
          result := Outcome.ret (some (HydrateItem.dbHome ⟨some "h1", none, none, none, none⟩))
            none } := by
  decide

/-! ## Listers: compartment conflict -/

/-- C11 (compartment conflict, `listContainerInstances` and
`listDatabaseDBHomes`): for every predicate set that contains a
`compartment_id` predicate whose value differs from the compartment of the
current enumeration scope, both listers return `nil, nil`, stream no row, ask
for no session and issue no list request, whatever the service helper and the
list API would answer. -/
theorem lister_compartment_conflict (compartment : String) (d : QueryData)
    (service : Option Err) (rowsRemaining : Nat → Int)
    (answersCI : List (Except Err (ListResponse ContainerInstanceSummary)))
    (answersDB : List (Except Err (ListResponse DbHomeSummary)))
    (q : QualValue) (hq : d.KeyColumnQuals "compartment_id" = some q)
    (hne : GetStringValue (some q) ≠ compartment) :
    listContainerInstances compartment d service rowsRemaining answersCI
      = { sessions := 0, requests := [], streamed := [],
          result := some (Outcome.ret none none) } ∧
    listDatabaseDBHomes compartment d service rowsRemaining answersDB
      = { sessions := 0, requests := [], streamed := [],
          result := some (Outcome.ret none none) } := by
  have hguard : ((d.KeyColumnQuals "compartment_id").isSome
      && compartment != GetStringValue (d.KeyColumnQuals "compartment_id")) = true := by
    rw [hq]
    simp only [Option.isSome_some, Bool.true_and, bne_iff_ne, ne_eq]
    exact fun e => hne e.symm
  constructor
  · unfold listContainerInstances
    simp only [hguard, if_true]
  · unfold listDatabaseDBHomes
    simp only [hguard, if_true]

/-- C11 at a concrete query: the scope is compartment `ocid1.compartment.oc1..a`
and the query asks for `compartment_id = 'ocid1.compartment.oc1..b'`; the list
API, which would answer with a page of one item, is not asked. -/
theorem lister_compartment_conflict_witness :
    (⟨fun k => if k = "compartment_id"
        then some (QualValue.StringValue "ocid1.compartment.oc1..b") else none,
      none, none⟩ : QueryData).KeyColumnQuals "compartment_id"
      = some (QualValue.StringValue "ocid1.compartment.oc1..b") ∧
    GetStringValue (some (QualValue.StringValue "ocid1.compartment.oc1..b"))
      ≠ "ocid1.compartment.oc1..a" ∧
    listContainerInstances "ocid1.compartment.oc1..a"
        ⟨fun k => if k = "compartment_id"
          then some (QualValue.StringValue "ocid1.compartment.oc1..b") else none, none, none⟩
        none (fun _ => 2147483647)
        [Except.ok ⟨[⟨some "i1", none, none, none, none⟩], none⟩]
      = { sessions := 0, requests := [], streamed := [],
          result := some (Outcome.ret none none) } ∧
    listDatabaseDBHomes "ocid1.compartment.oc1..a"
        ⟨fun k => if k = "compartment_id"
          then some (QualValue.StringValue "ocid1.compartment.oc1..b") else none, none, none⟩
        none (fun _ => 2147483647)
        [Except.ok ⟨[⟨some "h1", none, none, none, none⟩], none⟩]
      = { sessions := 0, requests := [], streamed := [],
          result := some (Outcome.ret none none) } :=
  ⟨rfl, by decide,
    lister_compartment_conflict "ocid1.compartment.oc1..a" _ none (fun _ => 2147483647) _ _
      (QualValue.StringValue "ocid1.compartment.oc1..b") rfl (by decide)⟩

/-- Without the conflict the same query does reach the list API: with the
scope `ocid1.compartment.oc1..b` one session is asked for, one request is
issued and the row is streamed. -/
theorem lister_without_conflict_lists :
    (listContainerInstances "ocid1.compartment.oc1..b"
        ⟨fun k => if k = "compartment_id"
          then some (QualValue.StringValue "ocid1.compartment.oc1..b") else none, none, none⟩
        none (fun _ => 2147483647)
        [Except.ok ⟨[⟨some "i1", none, none, none, none⟩], none⟩]).sessions = 1 ∧
    (listContainerInstances "ocid1.compartment.oc1..b"
        ⟨fun k => if k = "compartment_id"
          then some (QualValue.StringValue "ocid1.compartment.oc1..b") else none, none, none⟩
        none (fun _ => 2147483647)
        [Except.ok ⟨[⟨some "i1", none, none, none, none⟩], none⟩]).streamed
      = [⟨some "i1", none, none, none, none⟩] := by
  constructor <;> decide

/-! ## Listers: the requests of one invocation -/

/-- The requests that the page loop issues: the request it is started on and
then, for each further request, the one before it with `Page` set to the cursor
of the answer to the one before it, that answer being a page with a cursor. -/
theorem pageLoop_requests_chain {Req Item : Type} (setPage : Req → Option String → Req)
    (rowsRemaining : Nat → Int) :
    ∀ (answers : List (Except Err (ListResponse Item))) (request : Req) (run : ListRun Req Item),
      ∃ reqs, (pageLoop setPage rowsRemaining answers request run).requests
          = run.requests ++ request :: reqs ∧
        ∀ k r, (request :: reqs)[k + 1]? = some r →
          ∃ prev response, (request :: reqs)[k]? = some prev ∧
            answers[k]? = some (Except.ok response) ∧
            response.OpcNextPage ≠ none ∧ r = setPage prev response.OpcNextPage
  | [], request, run => ⟨[], rfl, fun k r h => by simp at h⟩
  | Except.error err :: answers, request, run => ⟨[], rfl, fun k r h => by simp at h⟩
  | Except.ok response :: answers, request, run => by
    rw [pageLoop]
    rcases hst : streamItems rowsRemaining response.Items run.streamed with ⟨streamed, returned⟩
    cases returned with
    | true => exact ⟨[], rfl, fun k r h => by simp at h⟩
    | false =>
      cases hnext : response.OpcNextPage with
      | none => exact ⟨[], rfl, fun k r h => by simp at h⟩
      | some next =>
        obtain ⟨reqs, he, hc⟩ := pageLoop_requests_chain setPage rowsRemaining answers
          (setPage request (some next))
          { sessions := run.sessions, requests := run.requests ++ [request],
            streamed := streamed, result := run.result }
        refine ⟨setPage request (some next) :: reqs, ?_, ?_⟩
        · simp only [Bool.false_eq_true, if_false]
          rw [he]
          simp
        · intro k r h
          cases k with
          | zero =>
            simp only [Nat.zero_add, List.getElem?_cons_succ, List.getElem?_cons_zero,
              Option.some.injEq] at h
            refine ⟨request, response, by simp, by simp, by simp [hnext], ?_⟩
            rw [hnext, ← h]
          | succ k =>
            rw [List.getElem?_cons_succ] at h
            obtain ⟨prev, resp, h1, h2, h3, h4⟩ := hc k r h
            exact ⟨prev, resp, by rw [List.getElem?_cons_succ]; exact h1,
              by rw [List.getElem?_cons_succ]; exact h2, h3, h4⟩

/-- The requests of `listContainerInstances`: none, or those of the page loop
started on a request without `Page` for the compartment of the scope. -/
theorem listContainerInstances_requests (compartment : String) (d : QueryData)
    (service : Option Err) (rowsRemaining : Nat → Int)
    (answers : List (Except Err (ListResponse ContainerInstanceSummary))) :
    (listContainerInstances compartment d service rowsRemaining answers).requests = [] ∨
    ∃ request : ListContainerInstancesRequest,
      request.CompartmentId = some compartment ∧ request.Page = none ∧
      (listContainerInstances compartment d service rowsRemaining answers).requests =
        (pageLoop (fun r page => { r with Page := page }) rowsRemaining answers request
          { sessions := 1, requests := [], streamed := [], result := none }).requests := by
  unfold listContainerInstances
  simp only [buildContainerInstanceFilters]
  split
  · exact Or.inl rfl
  · split
    · exact Or.inl rfl
    · split
      · exact Or.inl rfl
      · refine Or.inr ⟨_, ?_, ?_, rfl⟩
        · cases d.Limit with
          | none => rfl
          | some l => by_cases h : l < wrapInt64 1000 <;> simp [h]
        · cases d.Limit with
          | none =>
            by_cases hd : ((d.KeyColumnQuals "displayName").isSome
              && stringsTrim (GetStringValue (d.KeyColumnQuals "displayName")) " " != "") = true
              <;> simp [hd, ListContainerInstancesRequest.zero]
          | some l =>
            by_cases h : l < wrapInt64 1000 <;>
            by_cases hd : ((d.KeyColumnQuals "displayName").isSome
              && stringsTrim (GetStringValue (d.KeyColumnQuals "displayName")) " " != "") = true
              <;> simp [h, hd, ListContainerInstancesRequest.zero]

/-- The filter builder of the database homes leaves `Page` unset. -/
theorem dbHomeFilters_page_unset (P : KeyColumnEqualsQualMap) :
    (buildDatabaseDBHomeFilters P).Page = none := by
  unfold buildDatabaseDBHomeFilters
  cases h1 : P "db_system_id" <;> cases h2 : P "db_version" <;> cases h3 : P "display_name" <;>
    cases h4 : P "lifecycle_state" <;> cases h5 : P "vm_cluster_id" <;>
    simp [ListDbHomesRequest.zero]

/-- The requests of `listDatabaseDBHomes`: none, or those of the page loop
started on a request without `Page` for the compartment of the scope. -/
theorem listDatabaseDBHomes_requests (compartment : String) (d : QueryData)
    (service : Option Err) (rowsRemaining : Nat → Int)
    (answers : List (Except Err (ListResponse DbHomeSummary))) :
    (listDatabaseDBHomes compartment d service rowsRemaining answers).requests = [] ∨
    ∃ request : ListDbHomesRequest,
      request.CompartmentId = some compartment ∧ request.Page = none ∧
      (listDatabaseDBHomes compartment d service rowsRemaining answers).requests =
        (pageLoop (fun r page => { r with Page := page }) rowsRemaining answers request
          { sessions := 1, requests := [], streamed := [], result := none }).requests := by
  have hpage : (buildDatabaseDBHomeFilters d.KeyColumnQuals).Page = none :=
    (dbHomeFilters_page_unset d.KeyColumnQuals)
  unfold listDatabaseDBHomes
  simp only []
  split
  · exact Or.inl rfl
  · split
    · exact Or.inl rfl
    · refine Or.inr ⟨_, ?_, ?_, rfl⟩
      · cases d.Limit with
        | none => rfl
        | some l => by_cases h : l < wrapInt64 1000 <;> simp [h]
      · cases d.Limit with
        | none => exact hpage
        | some l => by_cases h : l < wrapInt64 1000 <;> simp [h, hpage]

/-- C12 (scope fixed during pagination, `listContainerInstances` and
`listDatabaseDBHomes`): within one invocation every list request issued carries
the compartment of the scope as `CompartmentId`; the first request carries no
`Page`, and every request equals the first one once its `Page` is cleared, so
that `Limit` and the filter fields never change; and the `Page` of request
`k + 1` is exactly the next-page cursor of the answer to request `k`, which is
a successful page with a cursor. -/
theorem lister_requests_differ_in_page_only (compartment : String) (d : QueryData)
    (service : Option Err) (rowsRemaining : Nat → Int)
    (answersCI : List (Except Err (ListResponse ContainerInstanceSummary)))
    (answersDB : List (Except Err (ListResponse DbHomeSummary))) :
    ((∀ req ∈ (listContainerInstances compartment d service rowsRemaining answersCI).requests,
        req.CompartmentId = some compartment) ∧
      (∀ first,
        (listContainerInstances compartment d service rowsRemaining answersCI).requests.head?
          = some first →
        first.Page = none ∧
        ∀ req ∈ (listContainerInstances compartment d service rowsRemaining answersCI).requests,
          { req with Page := none } = first) ∧
      (∀ k req,
        (listContainerInstances compartment d service rowsRemaining answersCI).requests[k + 1]?
          = some req →
        ∃ response, answersCI[k]? = some (Except.ok response) ∧
          response.OpcNextPage ≠ none ∧ req.Page = response.OpcNextPage)) ∧
    ((∀ req ∈ (listDatabaseDBHomes compartment d service rowsRemaining answersDB).requests,
        req.CompartmentId = some compartment) ∧
      (∀ first,
        (listDatabaseDBHomes compartment d service rowsRemaining answersDB).requests.head?
          = some first →
        first.Page = none ∧
        ∀ req ∈ (listDatabaseDBHomes compartment d service rowsRemaining answersDB).requests,
          { req with Page := none } = first) ∧
      (∀ k req,
        (listDatabaseDBHomes compartment d service rowsRemaining answersDB).requests[k + 1]?
          = some req →
        ∃ response, answersDB[k]? = some (Except.ok response) ∧
          response.OpcNextPage ≠ none ∧ req.Page = response.OpcNextPage)) := by
  constructor
  · rcases listContainerInstances_requests compartment d service rowsRemaining answersCI
      with h | ⟨request, hc, hp, he⟩
    · rw [h]
      simp
    · obtain ⟨reqs, hr, hchain⟩ := pageLoop_requests_chain
        (fun (r : ListContainerInstancesRequest) page => { r with Page := page }) rowsRemaining
        answersCI request { sessions := 1, requests := [], streamed := [], result := none }
      have hfix : ∀ req ∈ (pageLoop
          (fun (r : ListContainerInstancesRequest) page => { r with Page := page }) rowsRemaining
          answersCI request
          { sessions := 1, requests := [], streamed := [], result := none }).requests,
          { req with Page := none } = request :=
        pageLoop_requests_inv (fun (r : ListContainerInstancesRequest) page => { r with Page := page })
          rowsRemaining (fun r : ListContainerInstancesRequest => { r with Page := none } = request)
          (fun r page h => h) answersCI request
          { sessions := 1, requests := [], streamed := [], result := none }
          (by cases request; simp at hp; subst hp; rfl)
          (fun r hr => absurd hr (List.not_mem_nil _))
      have hcomp : ∀ req ∈ (pageLoop
          (fun (r : ListContainerInstancesRequest) page => { r with Page := page }) rowsRemaining
          answersCI request
          { sessions := 1, requests := [], streamed := [], result := none }).requests,
          req.CompartmentId = some compartment :=
        pageLoop_requests_inv (fun (r : ListContainerInstancesRequest) page => { r with Page := page })
          rowsRemaining (fun r : ListContainerInstancesRequest => r.CompartmentId = some compartment)
          (fun r page h => h) answersCI request
          { sessions := 1, requests := [], streamed := [], result := none } hc
          (fun r hr => absurd hr (List.not_mem_nil _))
      rw [he]
      refine ⟨hcomp, ?_, ?_⟩
      · intro first hfirst
        rw [hr] at hfirst
        simp only [List.nil_append, List.head?_cons, Option.some.injEq] at hfirst
        subst hfirst
        exact ⟨hp, hfix⟩
      · intro k req hk
        rw [hr, List.nil_append] at hk
        obtain ⟨prev, response, _, h2, h3, h4⟩ := hchain k req hk
        exact ⟨response, h2, h3, by rw [h4]⟩
  · rcases listDatabaseDBHomes_requests compartment d service rowsRemaining answersDB
      with h | ⟨request, hc, hp, he⟩
    · rw [h]
      simp
    · obtain ⟨reqs, hr, hchain⟩ := pageLoop_requests_chain
        (fun (r : ListDbHomesRequest) page => { r with Page := page }) rowsRemaining
        answersDB request { sessions := 1, requests := [], streamed := [], result := none }
      have hfix : ∀ req ∈ (pageLoop
          (fun (r : ListDbHomesRequest) page => { r with Page := page }) rowsRemaining
          answersDB request
          { sessions := 1, requests := [], streamed := [], result := none }).requests,
          { req with Page := none } = request :=
        pageLoop_requests_inv (fun (r : ListDbHomesRequest) page => { r with Page := page })
          rowsRemaining (fun r : ListDbHomesRequest => { r with Page := none } = request)
          (fun r page h => h) answersDB request
          { sessions := 1, requests := [], streamed := [], result := none }
          (by cases request; simp at hp; subst hp; rfl)
          (fun r hr => absurd hr (List.not_mem_nil _))
      have hcomp : ∀ req ∈ (pageLoop
          (fun (r : ListDbHomesRequest) page => { r with Page := page }) rowsRemaining
          answersDB request
          { sessions := 1, requests := [], streamed := [], result := none }).requests,
          req.CompartmentId = some compartment :=
        pageLoop_requests_inv (fun (r : ListDbHomesRequest) page => { r with Page := page })
          rowsRemaining (fun r : ListDbHomesRequest => r.CompartmentId = some compartment)
          (fun r page h => h) answersDB request
          { sessions := 1, requests := [], streamed := [], result := none } hc
          (fun r hr => absurd hr (List.not_mem_nil _))
      rw [he]
      refine ⟨hcomp, ?_, ?_⟩
      · intro first hfirst
        rw [hr] at hfirst
        simp only [List.nil_append, List.head?_cons, Option.some.injEq] at hfirst
        subst hfirst
        exact ⟨hp, hfix⟩
      · intro k req hk
        rw [hr, List.nil_append] at hk
        obtain ⟨prev, response, _, h2, h3, h4⟩ := hchain k req hk
        exact ⟨response, h2, h3, by rw [h4]⟩

/-- C12 at a concrete run: a query with the predicate
`db_version = '19.0.0.0'` and a row limit of 50, answered by three pages with
the cursors `p2` and `p3`; the three requests differ in `Page` only. -/
theorem lister_requests_differ_in_page_only_witness :
    (listDatabaseDBHomes "ocid1.compartment.oc1..a"
        ⟨fun k => if k = "db_version" then some (QualValue.StringValue "19.0.0.0") else none,
          some 50, none⟩ none (fun _ => 2147483647)
        [Except.ok ⟨[⟨some "h1", none, none, none, none⟩], some "p2"⟩,
          Except.ok ⟨[⟨some "h2", none, none, none, none⟩], some "p3"⟩,
          Except.ok ⟨[⟨some "h3", none, none, none, none⟩], none⟩]).requests
      = [{ ListDbHomesRequest.zero with
            CompartmentId := some "ocid1.compartment.oc1..a", DbVersion := some "19.0.0.0",
            Limit := some 50, Page := none },
          { ListDbHomesRequest.zero with
            CompartmentId := some "ocid1.compartment.oc1..a", DbVersion := some "19.0.0.0",
            Limit := some 50, Page := some "p2" },
          { ListDbHomesRequest.zero with
            CompartmentId := some "ocid1.compartment.oc1..a", DbVersion := some "19.0.0.0",
            Limit := some 50, Page := some "p3" }] ∧
    (∀ k req,
      (listDatabaseDBHomes "ocid1.compartment.oc1..a"
        ⟨fun k => if k = "db_version" then some (QualValue.StringValue "19.0.0.0") else none,
          some 50, none⟩ none (fun _ => 2147483647)
        [Except.ok ⟨[⟨some "h1", none, none, none, none⟩], some "p2"⟩,
          Except.ok ⟨[⟨some "h2", none, none, none, none⟩], some "p3"⟩,
          Except.ok ⟨[⟨some "h3", none, none, none, none⟩], none⟩]).requests[k + 1]?
        = some req →
      ∃ response,
        [Except.ok ⟨[⟨some "h1", none, none, none, none⟩], some "p2"⟩,
          Except.ok ⟨[⟨some "h2", none, none, none, none⟩], some "p3"⟩,
          (Except.ok ⟨[⟨some "h3", none, none, none, none⟩], none⟩ :
            Except Err (ListResponse DbHomeSummary))][k]? = some (Except.ok response) ∧
        response.OpcNextPage ≠ none ∧ req.Page = response.OpcNextPage) :=
  ⟨by decide,
    (lister_requests_differ_in_page_only "ocid1.compartment.oc1..a"
      ⟨fun k => if k = "db_version" then some (QualValue.StringValue "19.0.0.0") else none,
        some 50, none⟩ none (fun _ => 2147483647) []
      [Except.ok ⟨[⟨some "h1", none, none, none, none⟩], some "p2"⟩,
        Except.ok ⟨[⟨some "h2", none, none, none, none⟩], some "p3"⟩,
        Except.ok ⟨[⟨some "h3", none, none, none, none⟩], none⟩]).2.2.2⟩

/-! ## Dependent hydrator: what is returned on success -/

/-- What `containerDetailsOf` copies: when lines 323-346 do not panic, the
detail carries the display name, the image URL and the restart count of the
response, and its `ExitCode` is the zero value, which no line assigns. -/
theorem containerDetailsOf_fields (cresponse : Container) (detail : ContainerDetails)
    (h : containerDetailsOf cresponse = some detail) :
    cresponse.DisplayName = some detail.DisplayName ∧
    cresponse.ImageUrl = some detail.ImageUrl ∧
    cresponse.ContainerRestartAttemptCount = some detail.ContainerRestartAttemptCount ∧
    detail.ExitCode = 0 := by
  obtain ⟨dn, iu, wd, ec, rc, cfg, tt, tc, tu⟩ := cresponse
  cases dn with
  | none => cases h
  | some dn =>
    cases iu with
    | none => cases h
    | some iu =>
      cases rc with
      | none =>
        cases wd <;> cases tu <;> cases tc <;> cases tt <;>
          rcases cfg with _ | ⟨_ | _, _ | _⟩ <;> cases h
      | some rc =>
        cases wd <;> cases tu <;> cases tc <;> cases tt <;>
          rcases cfg with _ | ⟨_ | _, _ | _⟩ <;> cases h <;> exact ⟨rfl, rfl, rfl, rfl⟩

/-- A response that carries display name, image URL and restart count is
turned into a detail: lines 323-346 do not panic on it. -/
theorem containerDetailsOf_isSome (cresponse : Container)
    (h1 : cresponse.DisplayName ≠ none) (h2 : cresponse.ImageUrl ≠ none)
    (h3 : cresponse.ContainerRestartAttemptCount ≠ none) :
    ∃ detail, containerDetailsOf cresponse = some detail := by
  obtain ⟨dn, iu, wd, ec, rc, cfg, tt, tc, tu⟩ := cresponse
  cases dn with
  | none => exact absurd rfl h1
  | some dn =>
    cases iu with
    | none => exact absurd rfl h2
    | some iu =>
      cases rc with
      | none => exact absurd rfl h3
      | some rc =>
        cases wd <;> cases tu <;> cases tc <;> cases tt <;>
          rcases cfg with _ | ⟨_ | _, _ | _⟩ <;> exact ⟨_, rfl⟩

/-- The child loop on children that all carry an identifier and whose fetches
all return a complete container: one request per child, in the order of the children, and one
detail per child, the detail at position `j` being built from the answer to
the request for the child at position `j`. -/
theorem fetchContainers_ok (d : QueryData)
    (client : Nat → GetContainerRequest → Container × Option Err) :
    ∀ (children : List ContainerInstanceContainer) (idx : Nat)
      (calls : List GetContainerRequest),
      (∀ j child, children[j]? = some child →
        ∃ id, child.ContainerId = some id ∧
          FetchComplete (client (idx + j) ⟨some id, ⟨d.defaultRetryPolicy⟩⟩)) →
      ∃ details,
        fetchContainers d client idx children calls
          = (calls ++ children.map
              (fun c => (⟨c.ContainerId, ⟨d.defaultRetryPolicy⟩⟩ : GetContainerRequest)),
            some details) ∧
        details.length = children.length ∧
        ∀ j child id, children[j]? = some child → child.ContainerId = some id →
          ∃ detail, details[j]? = some detail ∧
            containerDetailsOf (client (idx + j) ⟨some id, ⟨d.defaultRetryPolicy⟩⟩).1
              = some detail
  | [], idx, calls, _ => ⟨[], by simp [fetchContainers], rfl, fun j child id h => by simp at h⟩
  | child :: rest, idx, calls, h => by
    obtain ⟨id, hid, hs⟩ := h 0 child (by simp)
    obtain ⟨detail, hdet⟩ := containerDetailsOf_isSome _ hs.2.1 hs.2.2.1 hs.2.2.2
    obtain ⟨details, he, hlen, hall⟩ := fetchContainers_ok d client rest (idx + 1)
      (calls ++ [⟨some id, ⟨d.defaultRetryPolicy⟩⟩])
      (fun j c hc => by
        have := h (j + 1) c (by rw [List.getElem?_cons_succ]; exact hc)
        rwa [show idx + 1 + j = idx + (j + 1) by omega])
    rw [Nat.add_zero] at hdet
    refine ⟨detail :: details, ?_, by simp [hlen], ?_⟩
    · rw [fetchContainers]
      simp only [hid, hdet, he]
      simp [hid]
    · intro j c cid hc hcid
      cases j with
      | zero =>
        simp only [List.getElem?_cons_zero, Option.some.injEq] at hc
        subst hc
        rw [hid] at hcid
        cases hcid
        exact ⟨detail, by simp, by rw [Nat.add_zero]; exact hdet⟩
      | succ j =>
        rw [List.getElem?_cons_succ] at hc
        obtain ⟨det, h1, h2⟩ := hall j c cid hc hcid
        refine ⟨det, by rw [List.getElem?_cons_succ]; exact h1, ?_⟩
        rw [show idx + (j + 1) = idx + 1 + j by omega]
        exact h2

/-- Every detail that the child loop returns has the zero `ExitCode`. -/
theorem fetchContainers_exitCode (d : QueryData)
    (client : Nat → GetContainerRequest → Container × Option Err) :
    ∀ (children : List ContainerInstanceContainer) (idx : Nat)
      (calls calls' : List GetContainerRequest) (details : List ContainerDetails),
      fetchContainers d client idx children calls = (calls', some details) →
      ∀ detail ∈ details, detail.ExitCode = 0
  | [], idx, calls, calls', details, h => by
    simp only [fetchContainers, Prod.mk.injEq, Option.some.injEq] at h
    intro detail hd
    rw [← h.2] at hd
    exact absurd hd (List.not_mem_nil _)
  | child :: rest, idx, calls, calls', details, h => by
    rw [fetchContainers] at h
    cases hid : child.ContainerId with
    | none => simp [hid] at h
    | some id =>
      simp only [hid] at h
      cases hdet : containerDetailsOf (client idx ⟨some id, ⟨d.defaultRetryPolicy⟩⟩).1 with
      | none => simp [hdet] at h
      | some det =>
        simp only [hdet] at h
        rcases hrec : fetchContainers d client (idx + 1) rest
          (calls ++ [⟨some id, ⟨d.defaultRetryPolicy⟩⟩]) with ⟨c, _ | ds⟩
        · simp [hrec] at h
        · simp only [hrec, Prod.mk.injEq, Option.some.injEq] at h
          intro detail hd
          rw [← h.2] at hd
          rcases List.mem_cons.1 hd with e | hd'
          · rw [e]
            exact (containerDetailsOf_fields _ det hdet).2.2.2
          · exact fetchContainers_exitCode d client rest (idx + 1) _ c ds hrec detail hd'

/-- On complete answers `getContainerInstanceContainers` keeps the order of the
child references: when every child reference carries an identifier and every
fetch returns no error and a container with display name, image URL and
restart count, the function returns without error a list of exactly `n`
entries, after exactly one `GetContainer` request per child reference in the
order of the references, and entry `i` carries the display name and the image
URL of the container fetched with the identifier of the `i`-th reference. -/
theorem hydrator_order_on_complete_answers (d : QueryData) (info : ContainerInstanceInfo)
    (client : Nat → GetContainerRequest → Container × Option Err)
    (hfetch : ∀ i child, info.ContainerInstance.Containers[i]? = some child →
      ∃ id, child.ContainerId = some id ∧
        FetchComplete (client i ⟨some id, ⟨d.defaultRetryPolicy⟩⟩)) :
    ∃ details,
      (getContainerInstanceContainers d (some (HydrateItem.containerInstanceInfo info)) none
          client).result
        = Outcome.ret (some (HydrateItem.containerInstanceContainers ⟨details⟩)) none ∧
      (getContainerInstanceContainers d (some (HydrateItem.containerInstanceInfo info)) none
          client).calls
        = info.ContainerInstance.Containers.map
            (fun c => (⟨c.ContainerId, ⟨d.defaultRetryPolicy⟩⟩ : GetContainerRequest)) ∧
      details.length = info.ContainerInstance.Containers.length ∧
      ∀ i child id, info.ContainerInstance.Containers[i]? = some child →
        child.ContainerId = some id →
        ∃ detail, details[i]? = some detail ∧
          containerDetailsOf (client i ⟨some id, ⟨d.defaultRetryPolicy⟩⟩).1 = some detail ∧
          (client i ⟨some id, ⟨d.defaultRetryPolicy⟩⟩).1.DisplayName
            = some detail.DisplayName ∧
          (client i ⟨some id, ⟨d.defaultRetryPolicy⟩⟩).1.ImageUrl = some detail.ImageUrl := by
  obtain ⟨details, he, hlen, hall⟩ := fetchContainers_ok d client
    info.ContainerInstance.Containers 0 []
    (fun j child hc => by rw [Nat.zero_add]; exact hfetch j child hc)
  refine ⟨details, ?_, ?_, hlen, ?_⟩
  · unfold getContainerInstanceContainers
    simp only [he]
  · unfold getContainerInstanceContainers
    simp only [he, List.nil_append]
  · intro i child id hc hid
    obtain ⟨detail, h1, h2⟩ := hall i child id hc hid
    rw [Nat.zero_add] at h2
    have hf := containerDetailsOf_fields _ detail h2
    exact ⟨detail, h1, h2, hf.1, hf.2.1⟩

/-- The order on complete answers at a concrete parent: the child references
`c1`, `c2`, `c3`, each fetched as a container named after its identifier; the
details come back in the order `c1`, `c2`, `c3`. -/
theorem hydrator_order_on_complete_answers_example :
    (getContainerInstanceContainers ⟨fun _ => none, none, none⟩
      (some (HydrateItem.containerInstanceInfo
        ⟨⟨some "ci", none, none, none, [⟨some "c1", none⟩, ⟨some "c2", none⟩, ⟨some "c3", none⟩],
          none, none⟩, ⟨0⟩, "", ⟨0⟩, ⟨0⟩⟩))
      none (fun _ req =>
        ({ DisplayName := req.ContainerId, ImageUrl := some "img", WorkingDirectory := none,
           ExitCode := none, ContainerRestartAttemptCount := some 0, ResourceConfig := none,
           TimeTerminated := none, TimeCreated := none, TimeUpdated := none }, none))).result
      = Outcome.ret (some (HydrateItem.containerInstanceContainers
          ⟨[{ ContainerDetails.zero with DisplayName := "c1", ImageUrl := "img" },
            { ContainerDetails.zero with DisplayName := "c2", ImageUrl := "img" },
            { ContainerDetails.zero with DisplayName := "c3", ImageUrl := "img" }]⟩)) none ∧
    ∃ details,
      (getContainerInstanceContainers ⟨fun _ => none, none, none⟩
        (some (HydrateItem.containerInstanceInfo
          ⟨⟨some "ci", none, none, none,
            [⟨some "c1", none⟩, ⟨some "c2", none⟩, ⟨some "c3", none⟩], none, none⟩,
            ⟨0⟩, "", ⟨0⟩, ⟨0⟩⟩))
        none (fun _ req =>
          ({ DisplayName := req.ContainerId, ImageUrl := some "img", WorkingDirectory := none,
             ExitCode := none, ContainerRestartAttemptCount := some 0, ResourceConfig := none,
             TimeTerminated := none, TimeCreated := none, TimeUpdated := none }, none))).result
        = Outcome.ret (some (HydrateItem.containerInstanceContainers ⟨details⟩)) none ∧
      details.length = 3 := by
  refine ⟨by decide, ?_⟩
  obtain ⟨details, h1, _, h3, _⟩ := hydrator_order_on_complete_answers
    ⟨fun _ => none, none, none⟩
    ⟨⟨some "ci", none, none, none, [⟨some "c1", none⟩, ⟨some "c2", none⟩, ⟨some "c3", none⟩],
      none, none⟩, ⟨0⟩, "", ⟨0⟩, ⟨0⟩⟩
    (fun _ req =>
      ({ DisplayName := req.ContainerId, ImageUrl := some "img", WorkingDirectory := none,
         ExitCode := none, ContainerRestartAttemptCount := some 0, ResourceConfig := none,
         TimeTerminated := none, TimeCreated := none, TimeUpdated := none }, none))
    (by
      intro i child hc
      have hm := List.getElem?_mem hc
      simp only [List.mem_cons, List.mem_singleton, List.not_mem_nil, or_false] at hm
      rcases hm with rfl | rfl | rfl
      · exact ⟨"c1", rfl, rfl, by simp, by simp, by simp⟩
      · exact ⟨"c2", rfl, rfl, by simp, by simp, by simp⟩
      · exact ⟨"c3", rfl, rfl, by simp, by simp, by simp⟩)
  exact ⟨details, h1, h3⟩

/-- A response without restart count makes the dereference of line 346 panic,
whatever else it carries. -/
theorem containerDetailsOf_nil_restartCount (cresponse : Container)
    (h : cresponse.ContainerRestartAttemptCount = none) :
    containerDetailsOf cresponse = none := by
  obtain ⟨dn, iu, wd, ec, rc, cfg, tt, tc, tu⟩ := cresponse
  cases h
  cases dn <;> cases iu <;> cases wd <;> cases tu <;> cases tc <;> cases tt <;>
    rcases cfg with _ | ⟨_ | _, _ | _⟩ <;> rfl

/-- C13, the failing input: a parent with the child references `c1`, `c2`
whose fetches both succeed (no error), the container fetched for `c2` carrying
display name and image URL but no restart count, a field the API may leave
out. Both requests are issued, in the order of the references, and the function
then panics on `*cresponse.ContainerRestartAttemptCount`: it returns no list,
neither the two entries in the order `c1`, `c2` nor the entry already built
for `c1`. -/
theorem hydrator_panics_without_restart_count :
    (∀ (idx : Nat) (req : GetContainerRequest),
      ((fun (idx : Nat) (req : GetContainerRequest) =>
        (({ DisplayName := req.ContainerId, ImageUrl := some "img", WorkingDirectory := none,
            ExitCode := none,
            ContainerRestartAttemptCount := if idx = 0 then some 0 else none,
            ResourceConfig := none, TimeTerminated := none, TimeCreated := none,
            TimeUpdated := none } : Container), (none : Option Err))) idx req).2 = none) ∧
    getContainerInstanceContainers ⟨fun _ => none, none, none⟩
      (some (HydrateItem.containerInstanceInfo
        ⟨⟨some "ci", none, none, none, [⟨some "c1", none⟩, ⟨some "c2", none⟩], none, none⟩,
          ⟨0⟩, "", ⟨0⟩, ⟨0⟩⟩))
      none (fun idx req =>
        ({ DisplayName := req.ContainerId, ImageUrl := some "img", WorkingDirectory := none,
           ExitCode := none,
           ContainerRestartAttemptCount := if idx = 0 then some 0 else none,
           ResourceConfig := none, TimeTerminated := none, TimeCreated := none,
           TimeUpdated := none }, none))
      = { sessions := 1, calls := [⟨some "c1", ⟨none⟩⟩, ⟨some "c2", ⟨none⟩⟩],
          result := Outcome.panic } ∧
    getContainerInstanceContainers ⟨fun _ => none, none, none⟩
      (some (HydrateItem.containerInstanceInfo
        ⟨⟨some "ci", none, none, none, [⟨some "c1", none⟩], none, none⟩, ⟨0⟩, "", ⟨0⟩, ⟨0⟩⟩))
      none (fun _ req =>
        ({ DisplayName := req.ContainerId, ImageUrl := some "img", WorkingDirectory := none,
           ExitCode := none, ContainerRestartAttemptCount := none,
           ResourceConfig := none, TimeTerminated := none, TimeCreated := none,
           TimeUpdated := none }, none))
      = { sessions := 1, calls := [⟨some "c1", ⟨none⟩⟩], result := Outcome.panic } := by
  refine ⟨fun _ _ => rfl, by decide, by decide⟩

/-! ## Tag merge: absent inputs -/

/-- The free-form loop alone: the map it builds holds exactly the entries of
the free-form map, as strings. -/
theorem freeform_fold_lookup (l : List (String × String)) (hl : (l.map Prod.fst).Nodup)
    (k : String) (v : Value) :
    l.foldl (fun tags kv => Tags.set tags kv.1 (Value.str kv.2)) Tags.empty k = some v ↔
      ∃ f, v = Value.str f ∧ (k, f) ∈ l := by
  by_cases h : ∃ b, (k, b) ∈ l
  · obtain ⟨b, hb, he⟩ := foldl_set_present Value.str k l h
    rw [he Tags.empty]
    constructor
    · intro e
      exact ⟨b, (Option.some.inj e).symm, hb⟩
    · rintro ⟨f, rfl, hf⟩
      rw [value_unique_of_keys_nodup k b f l hl hb hf]
  · rw [foldl_set_absent Value.str k l Tags.empty (fun b hb => h ⟨b, hb⟩)]
    constructor
    · intro e
      exact absurd e (by simp [Tags.empty])
    · rintro ⟨f, _, hf⟩
      exact absurd ⟨f, hf⟩ h

/-- With nil defined tags `dbHomeTags` returns, without error, a map that holds
exactly the entries of the free-form map, and the nil map when the free-form
map is nil too. -/
theorem dbHomeTags_nil_defined_tags (F : GoMap String String) (hF : GoMap.KeysDistinct F) :
    ∃ tags : TagMap,
      dbHomeTags (HydrateItem.dbHome ⟨none, none, none, F, none⟩) = (some tags, none) ∧
      (∀ k v, lookupTag tags k = some v ↔ ∃ f, v = Value.str f ∧ FreeformHolds F k f) ∧
      (F = none → tags = none) := by
  cases F with
  | none =>
    refine ⟨none, dbHomeTags_nil_nil, fun k v => ?_, fun _ => rfl⟩
    constructor
    · intro e
      exact absurd e (by simp [lookupTag])
    · rintro ⟨f, _, l, hl, _⟩
      exact absurd hl (by simp)
  | some l =>
    refine ⟨_, dbHomeTags_free_nil l, fun k v => ?_, fun e => absurd e (by simp)⟩
    have hl : (l.map Prod.fst).Nodup := hF
    show l.foldl (fun tags kv => Tags.set tags kv.1 (Value.str kv.2)) Tags.empty k = some v ↔ _
    rw [freeform_fold_lookup l hl k v]
    constructor
    · rintro ⟨f, e, hf⟩
      exact ⟨f, e, l, rfl, hf⟩
    · rintro ⟨f, e, l', hl', hf⟩
      cases hl'
      exact ⟨f, e, hf⟩

/-- C14 (Tag Merge with absent inputs, `containerInstanceTags` and
`dbHomeTags`): for every free-form map `F`, when the defined-tags map is nil
the merged result of every tag-bearing shape is a map `tags`, returned with a
nil error, that has exactly `F`'s keys with `F`'s values; in particular when
`F` is absent too, `tags` has no key (it is the nil map, which Go reads as an
empty map) and the error is nil. -/
theorem tagMerge_nil_defined_is_freeform (F : GoMap String String)
    (hF : GoMap.KeysDistinct F) :
    ∃ tags : TagMap,
      (∀ k v, lookupTag tags k = some v ↔ ∃ f, v = Value.str f ∧ FreeformHolds F k f) ∧
      (F = none → tags = none ∧ ∀ k, lookupTag tags k = none) ∧
      (∀ s : ContainerInstanceSummary, s.FreeformTags = F → s.DefinedTags = none →
        containerInstanceTags (HydrateItem.containerInstanceSummary s) = (some tags, none)) ∧
      (∀ c : ContainerInstance, c.FreeformTags = F → c.DefinedTags = none →
        containerInstanceTags (HydrateItem.containerInstance c) = (some tags, none)) ∧
      (∀ h : DbHome, h.FreeformTags = F → h.DefinedTags = none →
        dbHomeTags (HydrateItem.dbHome h) = (some tags, none)) ∧
      (∀ s : DbHomeSummary, s.FreeformTags = F → s.DefinedTags = none →
        dbHomeTags (HydrateItem.dbHomeSummary s) = (some tags, none)) := by
  obtain ⟨tags, he, hk, hn⟩ := dbHomeTags_nil_defined_tags F hF
  refine ⟨tags, hk, fun e => ⟨hn e, fun k => ?_⟩, ?_, ?_, ?_, ?_⟩
  · rw [hn e]
    rfl
  · intro s h1 h2
    rw [containerInstanceTags_summary_eq, h1, h2]
    exact he
  · intro c h1 h2
    rw [containerInstanceTags_instance_eq, h1, h2]
    exact he
  · intro h h1 h2
    rw [dbHomeTags_dbHome_eq, h1, h2]
    exact he
  · intro s h1 h2
    rw [dbHomeTags_summary_eq, h1, h2]
    exact he

/-- C14 at two concrete tag bags: free-form `{"env":"dev"}` with nil defined
tags, and both maps nil, for which both transforms return the nil map and a
nil error. -/
theorem tagMerge_nil_defined_is_freeform_witness :
    GoMap.KeysDistinct (some [("env", "dev")]) ∧
    (∃ tags : TagMap,
      (∀ k v, lookupTag tags k = some v ↔
        ∃ f, v = Value.str f ∧ FreeformHolds (some [("env", "dev")]) k f) ∧
      containerInstanceTags (HydrateItem.containerInstanceSummary
        ⟨none, none, none, some [("env", "dev")], none⟩) = (some tags, none) ∧
      dbHomeTags (HydrateItem.dbHome ⟨none, none, none, some [("env", "dev")], none⟩)
        = (some tags, none)) ∧
    GoMap.KeysDistinct (none : GoMap String String) ∧
    containerInstanceTags (HydrateItem.containerInstanceSummary ⟨none, none, none, none, none⟩)
      = (some none, none) ∧
    dbHomeTags (HydrateItem.dbHome ⟨none, none, none, none, none⟩) = (some none, none) := by
  have h1 : GoMap.KeysDistinct (some [("env", "dev")]) := by
    simp [GoMap.KeysDistinct, GoMap.range]
  have h2 : GoMap.KeysDistinct (none : GoMap String String) := by
    simp [GoMap.KeysDistinct, GoMap.range]
  obtain ⟨tags, hk, _, hs, _, hd, _⟩ := tagMerge_nil_defined_is_freeform _ h1
  obtain ⟨tags0, _, hn, hs0, _, hd0, _⟩ := tagMerge_nil_defined_is_freeform _ h2
  refine ⟨h1, ⟨tags, hk, hs _ rfl rfl, hd _ rfl rfl⟩, h2, ?_, ?_⟩
  · rw [← (hn rfl).1]
    exact hs0 _ rfl rfl
  · rw [← (hn rfl).1]
    exact hd0 _ rfl rfl

/-! ## Dependent hydrator: exit code -/

/-- C15 (exit code never populated, `getContainerInstanceContainers`): for
every parent detail and every answer of `GetContainer`, whatever the function
returns is a `ContainerInstanceContainers` each of whose entries has
`ExitCode` equal to 0, whatever exit code the fetched containers report. -/
theorem hydrator_exit_code_zero (d : QueryData) (hydrateResult : Option HydrateItem)
    (service : Option Err) (client : Nat → GetContainerRequest → Container × Option Err)
    (value : HydrateItem) (err : Option Err)
    (h : (getContainerInstanceContainers d hydrateResult service client).result
      = Outcome.ret (some value) err) :
    ∃ cs, value = HydrateItem.containerInstanceContainers cs ∧
      ∀ detail ∈ cs.Containers, detail.ExitCode = 0 := by
  unfold getContainerInstanceContainers at h
  split at h
  · dsimp only at h
    split at h
    · simp at h
    · split at h
      · rename_i calls containers hfetch
        simp only [Outcome.ret.injEq, Option.some.injEq] at h
        exact ⟨⟨containers⟩, h.1.symm,
          fetchContainers_exitCode d client _ 0 [] calls containers hfetch⟩
      · simp at h
  · simp at h

/-- C15 at a concrete parent: the fetched container reports the exit code 137
and the entry built from it has `ExitCode = 0`. -/
theorem hydrator_exit_code_zero_witness :
    (getContainerInstanceContainers ⟨fun _ => none, none, none⟩
      (some (HydrateItem.containerInstanceInfo
        ⟨⟨some "ci", none, none, none, [⟨some "c1", none⟩], none, none⟩, ⟨0⟩, "", ⟨0⟩, ⟨0⟩⟩))
      none (fun _ _ =>
        ({ DisplayName := some "web", ImageUrl := some "img", WorkingDirectory := some "/app",
           ExitCode := some 137, ContainerRestartAttemptCount := some 2, ResourceConfig := none,
           TimeTerminated := none, TimeCreated := none, TimeUpdated := none }, none))).result
      = Outcome.ret (some (HydrateItem.containerInstanceContainers
          ⟨[{ ContainerDetails.zero with
              DisplayName := "web", ImageUrl := "img", WorkingDirectory := "/app",
              ContainerRestartAttemptCount := 2, ExitCode := 0 }]⟩)) none ∧
    ∃ cs, HydrateItem.containerInstanceContainers
        ⟨[{ ContainerDetails.zero with
            DisplayName := "web", ImageUrl := "img", WorkingDirectory := "/app",
            ContainerRestartAttemptCount := 2, ExitCode := 0 }]⟩
        = HydrateItem.containerInstanceContainers cs ∧
      ∀ detail ∈ cs.Containers, detail.ExitCode = 0 :=
  have h : (getContainerInstanceContainers ⟨fun _ => none, none, none⟩
      (some (HydrateItem.containerInstanceInfo
        ⟨⟨some "ci", none, none, none, [⟨some "c1", none⟩], none, none⟩, ⟨0⟩, "", ⟨0⟩, ⟨0⟩⟩))
      none (fun _ _ =>
        ({ DisplayName := some "web", ImageUrl := some "img", WorkingDirectory := some "/app",
           ExitCode := some 137, ContainerRestartAttemptCount := some 2, ResourceConfig := none,
           TimeTerminated := none, TimeCreated := none, TimeUpdated := none }, none))).result
      = Outcome.ret (some (HydrateItem.containerInstanceContainers
          ⟨[{ ContainerDetails.zero with
              DisplayName := "web", ImageUrl := "img", WorkingDirectory := "/app",
              ContainerRestartAttemptCount := 2, ExitCode := 0 }]⟩)) none := by
    decide
  ⟨h, hydrator_exit_code_zero _ _ _ _ _ _ h⟩

end Oci
